import Mathlib

/-
  Verification of the SurfCast wind/wave visualization core.

  The definitions below are shallow embeddings of the TypeScript source of the
  repository.  Real-number arithmetic of the source is modelled over the exact
  rationals; the outputs of transcendental library calls (Math.sin, Math.cos,
  Math.sqrt, Math.random) are passed in as explicit inputs of the model, since
  the surrounding control flow never depends on more than their ranges.
-/

set_option maxHeartbeats 1000000

namespace SurfCast

/-! ### Field interpolator (client wind layer, IDW over screen points)

`ScreenPoint` mirrors the interface of the same name: a grid sample projected
to screen space, with precomputed wind components
(`u = -sin(windDir) * knots`, `v = -cos(windDir) * knots`, `speed = knots`,
`knots = windSpeed * 0.5399`, computed by `projectGridToScreen`). -/

structure ScreenPoint where
  x : ℚ
  y : ℚ
  u : ℚ
  v : ℚ
  speed : ℚ
  deriving DecidableEq

/-- Result record of the interpolators: a wind vector with its speed. -/
structure WindVec where
  u : ℚ
  v : ℚ
  speed : ℚ
  deriving DecidableEq

/-- Squared screen distance from the query `(x, y)` to a sample, the
`dx * dx + dy * dy` of the interpolation loop. -/
def distSqTo (x y : ℚ) (sp : ScreenPoint) : ℚ :=
  (x - sp.x) * (x - sp.x) + (y - sp.y) * (y - sp.y)

/-- The accumulation loop of `interpolateWind` (wind-wave layer variant with a
search radius, part_006 lines 118-149).  The accumulators `totalWeight`, `u`,
`v`, `speed` thread the local variables of the source; a sample farther than
the radius is skipped, a sample within distance-squared 1 short-circuits with
the exact-match branch, and any other sample contributes with weight
`1 / distSq`. -/
def interpolateWindGo (x y maxDistSq : ℚ) :
    List ScreenPoint → ℚ → ℚ → ℚ → ℚ → Option WindVec
  | [], totalWeight, u, v, speed =>
      if totalWeight = 0 then none
      else some ⟨u / totalWeight, v / totalWeight, speed / totalWeight⟩
  | sp :: rest, totalWeight, u, v, speed =>
      let distSq := distSqTo x y sp
      if maxDistSq < distSq then
        interpolateWindGo x y maxDistSq rest totalWeight u v speed
      else if distSq < 1 then some ⟨sp.u, sp.v, sp.speed⟩
      else
        interpolateWindGo x y maxDistSq rest (totalWeight + 1 / distSq)
          (u + sp.u * (1 / distSq)) (v + sp.v * (1 / distSq))
          (speed + sp.speed * (1 / distSq))

/-- `interpolateWind(x, y, screenPoints, maxDist = 2000)` of part_006
lines 118-149: returns `null` for an empty list, otherwise runs the
inverse-distance-weighting loop; `null` is also returned when every sample was
outside the radius (`totalWeight === 0`). -/
def interpolateWind (x y : ℚ) (screenPoints : List ScreenPoint) (maxDist : ℚ) :
    Option WindVec :=
  if screenPoints = [] then none
  else interpolateWindGo x y (maxDist * maxDist) screenPoints 0 0 0 0

/-! ### GPU particle-update shaders (webgl-wind)

The two fragment shaders below are modelled per particle over exact rationals.
Their transcendental inputs are passed as arguments: `distortion` is the
clamped cos-latitude factor (computed via `mercToLat` in part_002,
`cos(radians(...))` in part_003), `dropByRate` / `dropVal` is the 0-or-1
result of the `step(..., rand(seed))` drop test, and `randomPos` is the pair
`(rand(seed + 1.3), rand(seed + 2.1))` — all of them values of GLSL `fract`
or `sin`-based expressions, hence in the ranges assumed by the theorems. -/

/-- GLSL `step(edge, x)`: 1 when `edge <= x`, else 0. -/
def glslStep (edge x : ℚ) : ℚ := if edge ≤ x then 1 else 0

/-- GLSL `clamp(x, 0.0, 1.0)`. -/
def clamp01 (x : ℚ) : ℚ := max 0 (min x 1)

/-- GLSL `mix(a, b, t) = a * (1 - t) + b * t`. -/
def glslMix (a b t : ℚ) : ℚ := a + (b - a) * t

/-- GLSL `fract(x) = x - floor(x)`. -/
def fract (x : ℚ) : ℚ := x - ⌊x⌋

/-- One particle update of `FRAG_UPDATE` in wind-gl.ts (part_002
lines 70-114): advance the particle by
`offset = vec2(velocity.x / distortion, velocity.y) * u_speed_factor * 0.0003`,
detect an out-of-bounds next position with `step` sums, force `drop` when out
of bounds, and `mix` toward the random respawn position, clamping into
[0, 1] at the end.  `pos` and `velocity` are the decoded particle position and
the bilinear wind lookup (both in the shader's normalized spaces). -/
def fragUpdate002 (pos velocity : ℚ × ℚ) (distortion speedFactor dropByRate : ℚ)
    (randomPos : ℚ × ℚ) : ℚ × ℚ :=
  let offset : ℚ × ℚ :=
    (velocity.1 / distortion * speedFactor * (3/10000),
      velocity.2 * speedFactor * (3/10000))
  let nextPos : ℚ × ℚ := (pos.1 + offset.1, pos.2 + offset.2)
  let oob := glslStep nextPos.1 0 + glslStep 1 nextPos.1 +
    glslStep nextPos.2 0 + glslStep 1 nextPos.2
  let outOfBounds := clamp01 oob
  let drop := max dropByRate outOfBounds
  (clamp01 (glslMix nextPos.1 randomPos.1 drop),
    clamp01 (glslMix nextPos.2 randomPos.2 drop))

/-- One particle update of the legacy `FRAG_UPDATE` (part_003 lines 44-68):
the advanced position is wrapped with `pos = fract(pos + offset + 1.0)`
(offset scale 0.0001 there), then mixed toward the random position only when
the probabilistic drop test fires. -/
def fragUpdate003 (pos velocity : ℚ × ℚ) (distortion speedFactor dropVal : ℚ)
    (randomPos : ℚ × ℚ) : ℚ × ℚ :=
  let offset : ℚ × ℚ :=
    (velocity.1 / distortion * speedFactor * (1/10000),
      velocity.2 * speedFactor * (1/10000))
  let wrapped : ℚ × ℚ :=
    (fract (pos.1 + offset.1 + 1), fract (pos.2 + offset.2 + 1))
  (glslMix wrapped.1 randomPos.1 dropVal, glslMix wrapped.2 randomPos.2 dropVal)

/-! ### Particle simulation (2D canvas paths of part_006)

Particles of the primary animate loop (part_006 lines 24-31, 388-392,
473-499).  Positions are screen pixels; `age`/`maxAge` are frame counts.
Each `Math.random()` draw of the source is an explicit rational input in
[0, 1); the value of `Math.sqrt(u*u + v*v)` is likewise passed in as `mag`
(the age/respawn logic never depends on its exact value). -/

structure Particle where
  x : ℚ
  y : ℚ
  prevX : ℚ
  prevY : ℚ
  age : ℤ
  maxAge : ℤ
  deriving DecidableEq

/-- The respawn assignment of the animate loop (part_006 lines 492-497):
fresh uniform position inside the canvas, age zeroed, new jittered maxAge
`zp.maxAge + Math.floor(Math.random() * 40)`. -/
def respawnParticle (w h : ℚ) (zpMaxAge : ℤ) (r1 r2 r3 : ℚ) : Particle :=
  { x := r1 * w, y := r2 * h, prevX := r1 * w, prevY := r2 * h,
    age := 0, maxAge := zpMaxAge + ⌊r3 * 40⌋ }

/-- One per-particle body of the animate loop (part_006 lines 473-499):
sample the field at the particle position; with no data or near-zero speed,
set `age := maxAge` and skip; otherwise record the previous position,
advance along the normalized wind by `min(speed * speedScale, 3)`, increment
the age, and respawn when the new position leaves `[0, w] x [0, h]` or the
age reaches `maxAge`. -/
def stepParticle (spts : List ScreenPoint) (interpRadius speedScale : ℚ)
    (zpMaxAge : ℤ) (w h : ℚ) (p : Particle) (mag r1 r2 r3 : ℚ) : Particle :=
  match interpolateWind p.x p.y spts interpRadius with
  | none => { p with age := p.maxAge }
  | some wind =>
      if wind.speed < 1/10 then { p with age := p.maxAge }
      else
        let vel := min (wind.speed * speedScale) 3
        let x1 := if 1/100 < mag then p.x + wind.u / mag * vel else p.x
        let y1 := if 1/100 < mag then p.y - wind.v / mag * vel else p.y
        let age1 := p.age + 1
        if x1 < 0 ∨ w < x1 ∨ y1 < 0 ∨ h < y1 ∨ p.maxAge ≤ age1 then
          respawnParticle w h zpMaxAge r1 r2 r3
        else
          { x := x1, y := y1, prevX := p.x, prevY := p.y,
            age := age1, maxAge := p.maxAge }

/-- The per-frame per-particle inputs of the animate loop: the value of
`Math.sqrt` for the wind magnitude and the three `Math.random()` draws the
respawn branch may consume. -/
structure StepIn where
  mag : ℚ
  r1 : ℚ
  r2 : ℚ
  r3 : ℚ
  deriving DecidableEq

/-- One frame of the animate loop over the whole pool. -/
def stepPool (spts : List ScreenPoint) (interpRadius speedScale : ℚ)
    (zpMaxAge : ℤ) (w h : ℚ) (pool : List Particle) (ins : List StepIn) :
    List Particle :=
  List.zipWith
    (fun p i => stepParticle spts interpRadius speedScale zpMaxAge w h p
      i.mag i.r1 i.r2 i.r3) pool ins

/-- N animation frames: fold the per-frame step over a list of frame
inputs. -/
def runFrames (spts : List ScreenPoint) (interpRadius speedScale : ℚ)
    (zpMaxAge : ℤ) (w h : ℚ) (pool : List Particle)
    (frames : List (List StepIn)) : List Particle :=
  frames.foldl (stepPool spts interpRadius speedScale zpMaxAge w h) pool

/-! 2D-canvas fallback of the WebGL variant (part_006 lines 1538-1613).
Its `interpolateWind` needs the live map projection, so the sampled wind is
an explicit `Option WindVec` input here. -/

/-- Fallback particle (part_006 lines 1191-1196). -/
structure FBParticle where
  x : ℚ
  y : ℚ
  age : ℤ
  maxAge : ℤ
  deriving DecidableEq

/-- `resetParticle` of the fallback (part_006 lines 1553-1558). -/
def resetFBParticle (w h : ℚ) (r1 r2 r3 : ℚ) : FBParticle :=
  { x := r1 * w, y := r2 * h, age := 0, maxAge := 80 + ⌊r3 * 80⌋ }

/-- Initial-pool element of the fallback (part_006 lines 1544-1551): the age
is drawn from [0, 120) independently of the maxAge drawn from [80, 160). -/
def createFBParticle (w h : ℚ) (r1 r2 rAge rMax : ℚ) : FBParticle :=
  { x := r1 * w, y := r2 * h, age := ⌊rAge * 120⌋, maxAge := 80 + ⌊rMax * 80⌋ }

/-- One per-particle body of the fallback animate loop (part_006
lines 1571-1598): reset on missing wind, else advance by
`wind * 0.12`, increment the age, and reset when the age exceeds `maxAge`
or the position leaves the canvas. -/
def stepFBParticle (w h : ℚ) (p : FBParticle) (wind : Option WindVec)
    (r1 r2 r3 : ℚ) : FBParticle :=
  match wind with
  | none => resetFBParticle w h r1 r2 r3
  | some wind =>
      let x1 := p.x + wind.u * (3/25)
      let y1 := p.y - wind.v * (3/25)
      let age1 := p.age + 1
      if p.maxAge < age1 ∨ x1 < 0 ∨ w < x1 ∨ y1 < 0 ∨ h < y1 then
        resetFBParticle w h r1 r2 r3
      else { x := x1, y := y1, age := age1, maxAge := p.maxAge }

/-- Initial-pool element of the primary animate loop (`createParticle`,
part_006 lines 388-392): age drawn from [0, maxAge), maxAge jittered
upward. -/
def createParticle (w h : ℚ) (maxAge : ℤ) (r1 r2 rAge rJit : ℚ) : Particle :=
  { x := r1 * w, y := r2 * h, prevX := r1 * w, prevY := r2 * h,
    age := ⌊rAge * maxAge⌋, maxAge := maxAge + ⌊rJit * 40⌋ }

/-- Trail-drawing particle of the second wind-wave layer variant
(`FlowParticle`, part_006 lines 589-596). -/
structure FlowParticle where
  x : ℚ
  y : ℚ
  age : ℤ
  maxAge : ℤ
  trail : List (ℚ × ℚ)
  speed : ℚ
  deriving DecidableEq

/-- `resetParticle` of the second variant (part_006 lines 914-923): fresh
uniform position inside the container, age 0, maxAge drawn from
[TRAIL_LENGTH, 2 * TRAIL_LENGTH), trail restarted at the new position. -/
def resetFlowParticle (w h : ℚ) (trailLength : ℤ) (r1 r2 r3 : ℚ) :
    FlowParticle :=
  { x := r1 * w, y := r2 * h, age := 0,
    maxAge := trailLength + ⌊r3 * trailLength⌋,
    trail := [(r1 * w, r2 * h)], speed := 0 }

/-! ### Dense rasterized wind field (part_006 lines 635-728)

`buildWindField` rasterizes samples into a regular grid by IDW with weight
`1 / (d2 * d2)` in lat/lng space and an exact-match break at `d2 < 0.01`;
`sampleWindField` samples that grid bilinearly.  `FieldSample` carries the
wind components `u = -sin(windDir * pi/180) * windSpeed`,
`v = -cos(windDir * pi/180) * windSpeed` precomputed by the `uArr`/`vArr`
loop of the source whose trigonometry lies outside the rational model.  The
`speedField` plane of the source is the pointwise magnitude
`sqrt(u^2 + v^2)` of the two planes modelled here and is not needed for the
(u, v) round-trip. -/

structure FieldSample where
  lat : ℚ
  lng : ℚ
  u : ℚ
  v : ℚ
  deriving DecidableEq

/-- Squared lat/lng distance of a grid node to a sample,
`dlat * dlat + dlng * dlng`. -/
def geoDistSq (lat lon : ℚ) (q : FieldSample) : ℚ :=
  (lat - q.lat) * (lat - q.lat) + (lon - q.lng) * (lon - q.lng)

/-- Inner IDW loop of `buildWindField` (part_006 lines 667-682): accumulate
`totalW`, `uInterp`, `vInterp`; break with `(1, u_i, v_i)` at the first
sample with `d2 < 0.01`. -/
def idwCellGo (lat lon : ℚ) : List FieldSample → ℚ → ℚ → ℚ → ℚ × ℚ × ℚ
  | [], totalW, uI, vI => (totalW, uI, vI)
  | q :: rest, totalW, uI, vI =>
      let d2 := geoDistSq lat lon q
      if d2 < 1/100 then (1, q.u, q.v)
      else
        idwCellGo lat lon rest (totalW + 1 / (d2 * d2))
          (uI + q.u * (1 / (d2 * d2))) (vI + q.v * (1 / (d2 * d2)))

/-- One grid cell of `buildWindField`: run the loop, then divide by the
total weight when it is positive (part_006 lines 683-686). -/
def idwCell (pts : List FieldSample) (lat lon : ℚ) : ℚ × ℚ :=
  let acc := idwCellGo lat lon pts 0 0 0
  if 0 < acc.1 then (acc.2.1 / acc.1, acc.2.2 / acc.1) else (acc.2.1, acc.2.2)

/-- Longitude of grid column `x`:
`lon = bounds.west + (x / (width - 1)) * (east - west)`. -/
def lonOf (west east : ℚ) (width : ℕ) (x : ℕ) : ℚ :=
  west + ((x : ℚ) / ((width : ℚ) - 1)) * (east - west)

/-- Latitude of grid row `y`:
`lat = bounds.north - (y / (height - 1)) * (north - south)`. -/
def latOf (south north : ℚ) (height : ℕ) (y : ℕ) : ℚ :=
  north - ((y : ℚ) / ((height : ℚ) - 1)) * (north - south)

/-- The dense field: `width x height` grid of interpolated (u, v), flat
row-major indexing `idx = y * width + x` as in the source arrays. -/
structure WindField where
  width : ℕ
  height : ℕ
  uField : ℕ → ℚ
  vField : ℕ → ℚ

/-- `buildWindField(points, bounds, resolution)` (part_006 lines 643-696):
`width = resolution`, `height = Math.round(resolution * 0.6)`, each cell
IDW-interpolated at the lat/lng of its grid node. -/
def buildWindField (pts : List FieldSample) (south north west east : ℚ)
    (resolution : ℕ) : WindField :=
  let width := resolution
  let height := (round ((resolution : ℚ) * (3/5))).toNat
  { width := width, height := height,
    uField := fun idx =>
      (idwCell pts (latOf south north height (idx / width))
        (lonOf west east width (idx % width))).1,
    vField := fun idx =>
      (idwCell pts (latOf south north height (idx / width))
        (lonOf west east width (idx % width))).2 }

/-- `sampleWindField(field, normX, normY)` (part_006 lines 698-728):
bilinear sample of the (u, v) planes with index clamping. -/
def sampleWindField (field : WindField) (normX normY : ℚ) : ℚ × ℚ :=
  let fx := normX * ((field.width : ℚ) - 1)
  let fy := normY * ((field.height : ℚ) - 1)
  let ix := ⌊fx⌋
  let iy := ⌊fy⌋
  let dx := fx - ix
  let dy := fy - iy
  let x0 := (max 0 (min ix ((field.width : ℤ) - 1))).toNat
  let x1 := (max 0 (min (ix + 1) ((field.width : ℤ) - 1))).toNat
  let y0 := (max 0 (min iy ((field.height : ℤ) - 1))).toNat
  let y1 := (max 0 (min (iy + 1) ((field.height : ℤ) - 1))).toNat
  let i00 := y0 * field.width + x0
  let i10 := y0 * field.width + x1
  let i01 := y1 * field.width + x0
  let i11 := y1 * field.width + x1
  ((1 - dx) * (1 - dy) * field.uField i00 + dx * (1 - dy) * field.uField i10 +
      (1 - dx) * dy * field.uField i01 + dx * dy * field.uField i11,
    (1 - dx) * (1 - dy) * field.vField i00 + dx * (1 - dy) * field.vField i10 +
      (1 - dx) * dy * field.vField i01 + dx * dy * field.vField i11)

/-! ### Level-of-detail controller (part_006 lines 38-52)

`getZoomParams` of the wind-wave layer.  The intermediate constants `z`,
`delta`, `t`, `ease` of the source are factored into the named stage
functions below; `Math.round` is the round-half-up `round` of the rationals,
`Math.max`/`Math.min` are `max`/`min`. -/

/-- `const z = Math.max(2, Math.min(zoom, 18))`. -/
def zClamp (zoom : ℚ) : ℚ := max 2 (min zoom 18)

/-- `const delta = Math.max(0, z - BASE_ZOOM)` with `BASE_ZOOM = 4`. -/
def zDelta (zoom : ℚ) : ℚ := max 0 (zClamp zoom - 4)

/-- `const t = Math.min(1, delta / 6)`. -/
def zT (zoom : ℚ) : ℚ := min 1 (zDelta zoom / 6)

/-- `const ease = t * t`. -/
def zEase (zoom : ℚ) : ℚ := zT zoom * zT zoom

/-- The LOD parameter record returned by `getZoomParams`. -/
structure ZoomParams where
  particleCount : ℤ
  speedScale : ℚ
  trailFade : ℚ
  maxAge : ℤ
  lineWidth : ℚ
  interpRadius : ℤ
  deriving DecidableEq

/-- `getZoomParams(zoom)` of part_006 lines 40-52. -/
def getZoomParams (zoom : ℚ) : ZoomParams :=
  { particleCount := max 150 (round (1500 * (1 - zEase zoom * (9/10)))),
    speedScale := (12/100) * max (15/100) (1 - zEase zoom * (85/100)),
    trailFade := min (96/100) (92/100 + zEase zoom * (4/100)),
    maxAge := round (120 * (1 + zEase zoom * (4/5))),
    lineWidth := max (1/2) (1 - zEase zoom * (1/2)),
    interpRadius := 2000 + round (zDelta zoom * zDelta zoom * 500) }

/-- Per-frame per-particle inputs of the fallback loop. -/
structure FBIn where
  wind : Option WindVec
  r1 : ℚ
  r2 : ℚ
  r3 : ℚ
  deriving DecidableEq

/-- One frame of the fallback loop over the whole pool. -/
def stepFBPool (w h : ℚ) (pool : List FBParticle) (ins : List FBIn) :
    List FBParticle :=
  List.zipWith (fun p i => stepFBParticle w h p i.wind i.r1 i.r2 i.r3) pool ins

/-- N frames of the fallback loop. -/
def runFBFrames (w h : ℚ) (pool : List FBParticle)
    (frames : List (List FBIn)) : List FBParticle :=
  frames.foldl (stepFBPool w h) pool

/-! ### Grid samples and the server side (part_012, part_013)

`GridPoint` is the sample record exchanged by the grid-weather endpoint and
the client layers: wave fields are nullable. -/

structure GridPoint where
  lat : ℚ
  lng : ℚ
  windSpeed : ℚ
  windDir : ℚ
  temp : ℚ
  waveHeight : Option ℚ
  waveDir : Option ℚ
  wavePeriod : Option ℚ
  deriving DecidableEq

/-- JavaScript truncation toward zero, as used by the `%` operator. -/
def jsTrunc (q : ℚ) : ℤ := if 0 ≤ q then ⌊q⌋ else -⌊-q⌋

/-- JavaScript remainder `a % b` (sign follows the dividend). -/
def jsMod (a b : ℚ) : ℚ := a - b * (jsTrunc (a / b) : ℚ)

/-- `Math.round(q * 10) / 10`, the one-decimal rounding of the server. -/
def roundTo1 (q : ℚ) : ℚ := ((round (q * 10) : ℤ) : ℚ) / 10

/-- `x ? f(x) : null` on a nullable number: JavaScript number truthiness,
where 0 is falsy. -/
def jsTruthy (f : ℚ → ℚ) : Option ℚ → Option ℚ
  | none => none
  | some q => if q = 0 then none else some (f q)

/-- `x || d` on a nullable number (null, undefined and 0 give `d`). -/
def jsOrDefault (x : Option ℚ) (d : ℚ) : ℚ :=
  match x with
  | none => d
  | some v => if v = 0 then d else v

/-- The values of the `Math.sin`/`Math.cos` calls of
`generateSyntheticWindData` (part_012 lines 15-50), one field per call
site; the time-dependent phase `t = Date.now() / 3600000` is folded into
the oracle.  Real executions give each field values in [-1, 1]; no theorem
below needs more than that. -/
structure TrigOracle where
  cosLat2 : ℚ → ℚ
  sinLngT : ℚ → ℚ
  cosLatT : ℚ → ℚ
  sinDirVar : ℚ → ℚ → ℚ
  sinWaveH : ℚ → ℚ
  sinLng01 : ℚ → ℚ
  sinLat02 : ℚ → ℚ
  sinLng005 : ℚ → ℚ

/-- The all-zero trigonometry oracle (all sines and cosines vanish), a
possible value assignment for concrete examples. -/
def zeroOracle : TrigOracle :=
  { cosLat2 := fun _ => 0, sinLngT := fun _ => 0, cosLatT := fun _ => 0,
    sinDirVar := fun _ _ => 0, sinWaveH := fun _ => 0, sinLng01 := fun _ => 0,
    sinLat02 := fun _ => 0, sinLng005 := fun _ => 0 }

/-- One point of `generateSyntheticWindData` (part_012 lines 21-47):
trade-wind speed model, direction base by hemisphere, normalization of the
direction with `((x % 360) + 360) % 360`, coastal wave fields guarded by
number truthiness, and one-decimal rounding on output. -/
def syntheticPoint (o : TrigOracle) (lat lng : ℚ) : GridPoint :=
  let tradeWindBase := 15 + 10 * o.cosLat2 lat
  let dirBase := if 0 < lat then 225 + lat * (1/2) else 315 - lat * (1/2)
  let variation := o.sinLngT lng * 8 + o.cosLatT lat * 5
  let dirVariation := o.sinDirVar lat lng * 30
  let windSpeed := max 2 (min 45 (tradeWindBase + variation))
  let windDir := jsMod (jsMod (dirBase + dirVariation) 360 + 360) 360
  let waveHeight : Option ℚ :=
    if |lat| < 60 then
      some (max (1/5) (windSpeed * (2/25) + o.sinWaveH lat * (1/2)))
    else none
  let waveDir : Option ℚ :=
    if |lat| < 60 then some (jsMod (windDir + 10 + o.sinLng01 lng * 15) 360)
    else none
  let wavePeriod : Option ℚ :=
    if |lat| < 60 then
      some (max 4 (6 + windSpeed * (3/20) + o.sinLat02 lat * 2))
    else none
  { lat := roundTo1 lat, lng := roundTo1 lng,
    windSpeed := roundTo1 windSpeed,
    windDir := ((round windDir : ℤ) : ℚ),
    temp := roundTo1 (25 - |lat| * (2/5) + o.sinLng005 lng * 3),
    waveHeight := jsTruthy roundTo1 waveHeight,
    waveDir := jsTruthy (fun d => ((round d : ℤ) : ℚ)) waveDir,
    wavePeriod := jsTruthy roundTo1 wavePeriod }

/-- The ascending `for (v = start; v <= bound; v += step)` loops of the
server, fuel-bounded (the spans used divide into at most 8 steps, far below
the fuel of 16 the callers pass). -/
def ascSeq (start step bound : ℚ) : ℕ → List ℚ
  | 0 => []
  | fuel + 1 =>
      if start ≤ bound then start :: ascSeq (start + step) step bound fuel
      else []

/-- `generateSyntheticWindData(s, n, w, e)` (part_012 lines 15-50): a
5 x 7 subdivision of the bounds, one synthetic point per cell center. -/
def generateSyntheticWindData (s n w e : ℚ) (o : TrigOracle) :
    List GridPoint :=
  let latStep := (n - s) / 5
  let lngStep := (e - w) / 7
  ((ascSeq (s + latStep / 2) latStep n 16).map fun lat =>
    (ascSeq (w + lngStep / 2) lngStep e 16).map fun lng =>
      syntheticPoint o lat lng).join

/-- The `current` block of one Open-Meteo weather response entry; absent
and null fields are `none`. -/
structure WeatherCurrent where
  windSpeedTen : Option ℚ
  windDirectionTen : Option ℚ
  temperatureTwo : Option ℚ
  deriving DecidableEq

/-- One upstream weather entry (`wd` of the mapping loop). -/
structure WeatherEntry where
  latitude : ℚ
  longitude : ℚ
  current : Option WeatherCurrent
  deriving DecidableEq

/-- The `current` block of one Open-Meteo marine response entry. -/
structure MarineCurrent where
  waveHeightField : Option ℚ
  waveDirectionField : Option ℚ
  wavePeriodField : Option ℚ
  deriving DecidableEq

/-- One upstream marine entry (`md` of the mapping loop). -/
structure MarineEntry where
  current : Option MarineCurrent
  deriving DecidableEq

/-- The upstream-to-GridPoint mapping loop shared by both grid-weather
handlers (part_012 lines 398-413, part_013 lines 214-229): entries without
a `current` block are skipped, wind fields fall back to 0 with `|| 0`, and
each wave field independently falls back to null with `?? null`. -/
def mapPoints (ws : List WeatherEntry) (ms : List MarineEntry) :
    List GridPoint :=
  (List.range ws.length).filterMap fun i =>
    match ws.get? i with
    | none => none
    | some wd =>
        match wd.current with
        | none => none
        | some cur =>
            let md := ms.get? i
            some { lat := wd.latitude
                   lng := wd.longitude
                   windSpeed := jsOrDefault cur.windSpeedTen 0
                   windDir := jsOrDefault cur.windDirectionTen 0
                   temp := jsOrDefault cur.temperatureTwo 0
                   waveHeight := (md.bind MarineEntry.current).bind
                     MarineCurrent.waveHeightField
                   waveDir := (md.bind MarineEntry.current).bind
                     MarineCurrent.waveDirectionField
                   wavePeriod := (md.bind MarineEntry.current).bind
                     MarineCurrent.wavePeriodField }

/-! ### Grid sample stores (client fetch logic) -/

/-- State of the retrying grid sample store (part_006 lines 799-836):
current sample set, consecutive-retry counter, and the dedup key
(`lastBoundsRef`; the cleared string is `none`). -/
structure GridStore where
  points : List GridPoint
  retryCount : ℕ
  lastBounds : Option (ℚ × ℚ × ℚ × ℚ)
  deriving DecidableEq

/-- Outcome of one `/api/grid-weather` fetch as the client sees it. -/
inductive FetchRes where
  | ok (pts : List GridPoint)
  | status429
  | httpError
  | netError
  deriving DecidableEq

/-- One run of `fetchGridData` of the retrying store (part_006
lines 802-836).  Returns the new state and whether a retry timer was
scheduled.  An empty 200 response or a 429 bumps the retry counter and
schedules a retry while under 3 attempts, leaving the held points
untouched; a non-empty 200 response replaces the points and resets the
counter. -/
def fetchGridDataStep (st : GridStore) (key : ℚ × ℚ × ℚ × ℚ)
    (isRetry : Bool) (res : FetchRes) : GridStore × Bool :=
  if isRetry = false ∧ st.lastBounds = some key then (st, false)
  else
    let st1 : GridStore := { st with lastBounds := some key }
    match res with
    | .ok pts =>
        if pts ≠ [] then ({ st1 with points := pts, retryCount := 0 }, false)
        else if st1.retryCount < 3 then
          ({ st1 with retryCount := st1.retryCount + 1, lastBounds := none },
            true)
        else (st1, false)
    | .status429 =>
        if st1.retryCount < 3 then
          ({ st1 with retryCount := st1.retryCount + 1, lastBounds := none },
            true)
        else ({ st1 with lastBounds := none }, false)
    | .httpError => ({ st1 with lastBounds := none }, false)
    | .netError => ({ st1 with lastBounds := none }, false)

/-- A sequence of k fetches for one bounds key that all return
`{points: []}`: the first is a regular fetch, the later ones retries. -/
def emptyFetchRun (st : GridStore) (key : ℚ × ℚ × ℚ × ℚ) :
    ℕ → GridStore × Bool
  | 0 => (st, false)
  | k + 1 =>
      let prev := emptyFetchRun st key k
      fetchGridDataStep prev.1 key (if k = 0 then false else true) (.ok [])

/-- State of the plain store of `wind-layer.tsx` (lines 80-102): no retry
counter. -/
structure SimpleStore where
  points : List GridPoint
  lastBounds : Option (ℚ × ℚ × ℚ × ℚ)
  deriving DecidableEq

/-- One run of `fetchGridData` of `wind-layer.tsx` (lines 84-102): a
deduplicated fetch whose 200 response unconditionally replaces the points
with `data.points || []`, empty or not; errors change nothing further. -/
def simpleFetchStep (st : SimpleStore) (key : ℚ × ℚ × ℚ × ℚ)
    (res : FetchRes) : SimpleStore :=
  if st.lastBounds = some key then st
  else
    let st1 : SimpleStore := { st with lastBounds := some key }
    match res with
    | .ok pts => { st1 with points := pts }
    | .status429 => st1
    | .httpError => st1
    | .netError => st1

/-! ### The grid-weather endpoint handlers -/

/-- Response of the endpoint: a points payload or an HTTP error status. -/
inductive GridResponse where
  | pointsOk (pts : List GridPoint)
  | errorRes (code : ℕ)
  deriving DecidableEq

/-- Whether a response is a points payload. -/
def GridResponse.isPoints : GridResponse → Bool
  | .pointsOk _ => true
  | .errorRes _ => false

/-- The four `parseFloat` results of the query string; `none` is NaN. -/
def QueryBounds : Type := Option ℚ × Option ℚ × Option ℚ × Option ℚ

/-- The `[s, n, w, e].some(isNaN)` guard of both handlers. -/
def parseBounds (q : QueryBounds) : Option (ℚ × ℚ × ℚ × ℚ) :=
  match q with
  | (some s, some n, some w, some e) => some (s, n, w, e)
  | _ => none

/-- The bound padding shared by both handlers (snap the request up to at
least a 12-degree span, clamping latitude to +-90). -/
def padBounds (s n w e : ℚ) : ℚ × ℚ × ℚ × ℚ :=
  let latSpan := n - s
  let lngSpan := e - w
  let padLat := max 0 ((12 - latSpan) / 2)
  let padLng := max 0 ((12 - lngSpan) / 2)
  (max (-90) (s - padLat), min 90 (n + padLat), w - padLng, e + padLng)

/-- The query-point grid of the handlers: cell centers of a
`latDiv x lngDiv` subdivision, rounded to `1/roundScale` degrees, capped at
`cap` points (part_012 lines 335-353 with divisors 5 and 7, rounding scale
10 and cap 35; part_013 lines 169-188 with 6, 8, 100 and 50). -/
def buildPairs (gs gn gw ge latDiv lngDiv roundScale : ℚ) (cap : ℕ) :
    List (ℚ × ℚ) :=
  let latStep := (gn - gs) / latDiv
  let lngStep := (ge - gw) / lngDiv
  (((ascSeq (gs + latStep / 2) latStep gn 16).map fun lat =>
    (ascSeq (gw + lngStep / 2) lngStep ge 16).map fun lng =>
      (((round (lat * roundScale) : ℤ) : ℚ) / roundScale,
        ((round (lng * roundScale) : ℤ) : ℚ) / roundScale)).join).take cap

/-- Module state of the part_012 handler at request time: the cache entry
for this request's key (with its freshness flag), `lastGoodGridData`, and
whether `Date.now() < gridRateLimitUntil`. -/
structure ServerState where
  cached : Option (List GridPoint × Bool)
  lastGood : Option (List GridPoint)
  rateLimited : Bool

/-- What the upstream Open-Meteo round trip produced: a thrown fetch or
parse error, or response bodies (wind and marine entry arrays plus whether
the weather body carried an `error` field). -/
inductive UpstreamOutcome where
  | throwErr
  | result (ws : List WeatherEntry) (ms : List MarineEntry)
      (hasErrorField : Bool)

/-- The `/api/grid-weather` handler of part_012 (lines 313-437): invalid
bounds give 400; otherwise every path — fresh cache, rate limit, upstream
error body, thrown fetch, and success — answers with a points payload,
falling back to the cache, `lastGoodGridData`, or the synthetic generator
(the catch path re-parses the query with `parseFloat(x) || default`). -/
def gridWeatherHandler012 (st : ServerState) (q : QueryBounds)
    (up : UpstreamOutcome) (o : TrigOracle) : GridResponse :=
  match parseBounds q with
  | none => .errorRes 400
  | some (s, n, w, e) =>
      let padded := padBounds s n w e
      let gs := padded.1
      let gn := padded.2.1
      let gw := padded.2.2.1
      let ge := padded.2.2.2
      let pairs := buildPairs gs gn gw ge 5 7 10 35
      if pairs = [] then .pointsOk []
      else
        match st.cached with
        | some (c, true) => .pointsOk c
        | _ =>
            if st.rateLimited then
              match st.cached with
              | some (c, _) => .pointsOk c
              | none =>
                  match st.lastGood with
                  | some g => .pointsOk g
                  | none => .pointsOk (generateSyntheticWindData gs gn gw ge o)
            else
              match up with
              | .throwErr =>
                  match st.lastGood with
                  | some g => .pointsOk g
                  | none =>
                      .pointsOk (generateSyntheticWindData
                        (jsOrDefault q.1 (-30)) (jsOrDefault q.2.1 50)
                        (jsOrDefault q.2.2.1 (-130)) (jsOrDefault q.2.2.2 (-60))
                        o)
              | .result ws ms hasErr =>
                  if hasErr then
                    match st.cached with
                    | some (c, _) => .pointsOk c
                    | none =>
                        match st.lastGood with
                        | some g => .pointsOk g
                        | none =>
                            .pointsOk (generateSyntheticWindData gs gn gw ge o)
                  else .pointsOk (mapPoints ws ms)

/-- The `/api/grid-weather` handler of part_013 (lines 147-236): no cache,
no rate-limit tracking, no synthetic fallback; a thrown fetch reaches the
catch block, which answers `500 {error: "Failed to fetch grid data"}`; an
upstream error body is not checked, so its entries simply carry no
`current` and map to an empty points list. -/
def gridWeatherHandler013 (q : QueryBounds) (up : UpstreamOutcome) :
    GridResponse :=
  match parseBounds q with
  | none => .errorRes 400
  | some (s, n, w, e) =>
      let padded := padBounds s n w e
      let pairs := buildPairs padded.1 padded.2.1 padded.2.2.1 padded.2.2.2
        6 8 100 50
      if pairs = [] then .pointsOk []
      else
        match up with
        | .throwErr => .errorRes 500
        | .result ws ms _ => .pointsOk (mapPoints ws ms)

lemma interpolateWindGo_all_far (x y maxDistSq : ℚ) :
    ∀ (pts : List ScreenPoint) (tw u v s : ℚ),
      (∀ sp ∈ pts, maxDistSq < distSqTo x y sp) →
      interpolateWindGo x y maxDistSq pts tw u v s =
        if tw = 0 then none else some ⟨u / tw, v / tw, s / tw⟩ := by
  intro pts
  induction pts with
  | nil => intro tw u v s _; rfl
  | cons sp rest ih =>
      intro tw u v s h
      have hsp : maxDistSq < distSqTo x y sp := h sp (List.mem_cons_self sp rest)
      have hrest : ∀ q ∈ rest, maxDistSq < distSqTo x y q := by
        intro q hq; exact h q (List.mem_cons_of_mem sp hq)
      simp only [interpolateWindGo]
      rw [if_pos hsp]
      exact ih tw u v s hrest

/-- C1: a field query farther than the interpolation radius from every sample
yields the null "no data" result of `interpolateWind` (part_006
lines 118-149), never a numeric zero vector.  (The radius-free interpolator
of `wind-layer.tsx` lines 309-347 has no configured radius: every sample is
always in range there, so the premise of the claim is not instantiable for
it.) -/
theorem interpolateWind_far_returns_none (x y maxDist : ℚ)
    (pts : List ScreenPoint)
    (h : ∀ sp ∈ pts, maxDist * maxDist < distSqTo x y sp) :
    interpolateWind x y pts maxDist = none := by
  unfold interpolateWind
  by_cases hnil : pts = []
  · rw [if_pos hnil]
  · rw [if_neg hnil, interpolateWindGo_all_far x y _ pts 0 0 0 0 h, if_pos rfl]

theorem interpolateWind_far_returns_none_witness :
    (∀ sp ∈ [ScreenPoint.mk 10 0 1 2 3, ScreenPoint.mk 0 10 4 5 6],
        (2 : ℚ) * 2 < distSqTo 0 0 sp) ∧
      interpolateWind 0 0 [ScreenPoint.mk 10 0 1 2 3, ScreenPoint.mk 0 10 4 5 6] 2 = none :=
  ⟨by norm_num [distSqTo],
    interpolateWind_far_returns_none 0 0 2
      [ScreenPoint.mk 10 0 1 2 3, ScreenPoint.mk 0 10 4 5 6]
      (by norm_num [distSqTo])⟩

lemma interpolateWindGo_first_close (x y maxDistSq : ℚ) (sp : ScreenPoint)
    (l2 : List ScreenPoint) (hsp : distSqTo x y sp < 1)
    (hrad : ¬ maxDistSq < distSqTo x y sp) :
    ∀ (l1 : List ScreenPoint) (tw u v s : ℚ),
      (∀ q ∈ l1, ¬ distSqTo x y q < 1) →
      interpolateWindGo x y maxDistSq (l1 ++ sp :: l2) tw u v s =
        some ⟨sp.u, sp.v, sp.speed⟩ := by
  intro l1
  induction l1 with
  | nil =>
      intro tw u v s _
      simp only [List.nil_append, interpolateWindGo]
      rw [if_neg hrad, if_pos hsp]
  | cons q rest ih =>
      intro tw u v s h
      have hq : ¬ distSqTo x y q < 1 := h q (List.mem_cons_self q rest)
      have hrest : ∀ r ∈ rest, ¬ distSqTo x y r < 1 := by
        intro r hr; exact h r (List.mem_cons_of_mem q hr)
      simp only [List.cons_append, interpolateWindGo]
      by_cases hfar : maxDistSq < distSqTo x y q
      · rw [if_pos hfar]; exact ih tw u v s hrest
      · rw [if_neg hfar, if_neg hq]; exact ih _ _ _ _ hrest

/-- C5: when the query point is within the epsilon distance
(distance-squared below 1) of a sample and no earlier sample of the list is
that close, `interpolateWind` returns exactly that sample's value through the
exact-match branch (part_006 lines 137-139); a radius of at least 1 keeps an
epsilon-close sample inside the search radius. -/
theorem interpolateWind_exact_match (x y maxDist : ℚ) (sp : ScreenPoint)
    (l1 l2 : List ScreenPoint) (hmax : 1 ≤ maxDist)
    (hsp : distSqTo x y sp < 1)
    (hfirst : ∀ q ∈ l1, ¬ distSqTo x y q < 1) :
    interpolateWind x y (l1 ++ sp :: l2) maxDist =
      some ⟨sp.u, sp.v, sp.speed⟩ := by
  have hone : (1 : ℚ) ≤ maxDist * maxDist := by nlinarith
  have hrad : ¬ maxDist * maxDist < distSqTo x y sp := by
    push_neg; exact le_of_lt (lt_of_lt_of_le hsp hone)
  unfold interpolateWind
  rw [if_neg (by simp), interpolateWindGo_first_close x y _ sp l2 hsp hrad l1 0 0 0 0 hfirst]

/-- Witness for C5, the scenario of the specification: three samples at screen
positions (0,0), (0,1), (1,0) with wind directions 0, 90, 180 degrees and
windSpeed 10 (so knots = 5.399 and the u/v components are as written below),
queried at (0,0): the result is exactly the first sample's value. -/
theorem interpolateWind_exact_match_witness :
    (1 : ℚ) ≤ 2000 ∧
      distSqTo 0 0 (ScreenPoint.mk 0 0 0 (-5399/1000) (5399/1000)) < 1 ∧
      interpolateWind 0 0
        ([] ++ ScreenPoint.mk 0 0 0 (-5399/1000) (5399/1000) ::
          [ScreenPoint.mk 0 1 (-5399/1000) 0 (5399/1000),
            ScreenPoint.mk 1 0 0 (5399/1000) (5399/1000)]) 2000 =
        some ⟨0, -5399/1000, 5399/1000⟩ :=
  ⟨by norm_num, by norm_num [distSqTo],
    interpolateWind_exact_match 0 0 2000
      (ScreenPoint.mk 0 0 0 (-5399/1000) (5399/1000))
      []
      [ScreenPoint.mk 0 1 (-5399/1000) 0 (5399/1000),
        ScreenPoint.mk 1 0 0 (5399/1000) (5399/1000)]
      (by norm_num) (by norm_num [distSqTo]) (by simp)⟩

lemma glslStep_nonneg (e x : ℚ) : 0 ≤ glslStep e x := by
  unfold glslStep; split <;> norm_num

lemma glslStep_eq_one (e x : ℚ) (h : e ≤ x) : glslStep e x = 1 := by
  unfold glslStep; rw [if_pos h]

/-- C2 counterexample: the legacy shader of part_003 wraps instead of
respawning.  A particle at normalized x = 0.99995 (the right edge of the
viewport) moving rightward (velocity.x = 2, distortion 1, speed factor 1,
drop test not firing) ends the frame at x = 0.00015 — teleported to the left
edge — and the result is not the random respawn position (0.7, 0.7). -/
theorem fragUpdate003_wraps_at_right_edge :
    fragUpdate003 (19999/20000, 1/2) (2, 0) 1 1 0 (7/10, 7/10) =
      (3/20000, 1/2) ∧
    (3/20000 : ℚ) < 1/100 ∧ (99/100 : ℚ) < 19999/20000 ∧
    ((3/20000 : ℚ), (1/2 : ℚ)) ≠ ((7/10 : ℚ), (7/10 : ℚ)) := by
  refine ⟨?_, by norm_num, by norm_num, by norm_num⟩
  have h1 : (⌊(40003/20000 : ℚ)⌋ : ℤ) = 2 := by
    rw [Int.floor_eq_iff]
    norm_num
  have h2 : (⌊(3/2 : ℚ)⌋ : ℤ) = 1 := by
    rw [Int.floor_eq_iff]
    norm_num
  unfold fragUpdate003 fract glslMix
  norm_num [h1, h2]

/-- C2 amended: in the current shader (`FRAG_UPDATE` of wind-gl.ts,
part_002), a particle whose integration step carries it outside the
normalized viewport [0,1]x[0,1] — including one exactly on the right edge
moving rightward, for which the next position satisfies `1 <= nextPos.x` —
is unconditionally replaced by the random respawn position; it is never
wrapped to the opposite edge.  The hypotheses state that the drop-test value
and the random position lie in the ranges GLSL `step` and `rand` produce. -/
theorem fragUpdate002_out_of_bounds_respawns (pos velocity : ℚ × ℚ)
    (distortion speedFactor dropByRate : ℚ) (randomPos : ℚ × ℚ)
    (hd0 : 0 ≤ dropByRate) (hd1 : dropByRate ≤ 1)
    (hrx0 : 0 ≤ randomPos.1) (hrx1 : randomPos.1 ≤ 1)
    (hry0 : 0 ≤ randomPos.2) (hry1 : randomPos.2 ≤ 1)
    (hoob : pos.1 + velocity.1 / distortion * speedFactor * (3/10000) ≤ 0 ∨
        1 ≤ pos.1 + velocity.1 / distortion * speedFactor * (3/10000) ∨
        pos.2 + velocity.2 * speedFactor * (3/10000) ≤ 0 ∨
        1 ≤ pos.2 + velocity.2 * speedFactor * (3/10000)) :
    fragUpdate002 pos velocity distortion speedFactor dropByRate randomPos =
      randomPos := by
  simp only [fragUpdate002]
  set nx := pos.1 + velocity.1 / distortion * speedFactor * (3/10000) with hnx
  set ny := pos.2 + velocity.2 * speedFactor * (3/10000) with hny
  have hone : (1 : ℚ) ≤ glslStep nx 0 + glslStep 1 nx +
      glslStep ny 0 + glslStep 1 ny := by
    have a1 := glslStep_nonneg nx 0
    have a2 := glslStep_nonneg 1 nx
    have a3 := glslStep_nonneg ny 0
    have a4 := glslStep_nonneg 1 ny
    rcases hoob with h | h | h | h
    · have := glslStep_eq_one nx 0 h; linarith
    · have := glslStep_eq_one 1 nx h; linarith
    · have := glslStep_eq_one ny 0 h; linarith
    · have := glslStep_eq_one 1 ny h; linarith
  have hclamp : clamp01 (glslStep nx 0 + glslStep 1 nx +
      glslStep ny 0 + glslStep 1 ny) = 1 := by
    unfold clamp01
    rw [min_eq_right hone, max_eq_right (by norm_num : (0:ℚ) ≤ 1)]
  rw [hclamp, max_eq_right hd1]
  unfold glslMix clamp01
  have e1 : nx + (randomPos.1 - nx) * 1 = randomPos.1 := by ring
  have e2 : ny + (randomPos.2 - ny) * 1 = randomPos.2 := by ring
  rw [e1, e2, min_eq_left hrx1, max_eq_right hrx0,
    min_eq_left hry1, max_eq_right hry0]

theorem fragUpdate002_out_of_bounds_respawns_witness :
    (0 : ℚ) ≤ 0 ∧ (0 : ℚ) ≤ 1 ∧
      (0 : ℚ) ≤ (1/4 : ℚ) ∧ (1/4 : ℚ) ≤ 1 ∧
      (0 : ℚ) ≤ (3/4 : ℚ) ∧ (3/4 : ℚ) ≤ 1 ∧
      (1 : ℚ) ≤ (1 : ℚ) + (1 : ℚ) / 1 * 1 * (3/10000) ∧
      fragUpdate002 (1, 1/2) (1, 0) 1 1 0 (1/4, 3/4) = (1/4, 3/4) :=
  ⟨le_refl 0, by norm_num, by norm_num, by norm_num, by norm_num, by norm_num,
    by norm_num,
    fragUpdate002_out_of_bounds_respawns (1, 1/2) (1, 0) 1 1 0 (1/4, 3/4)
      (le_refl 0) (by norm_num) (by norm_num) (by norm_num) (by norm_num)
      (by norm_num) (Or.inr (Or.inl (by norm_num)))⟩

/-- C3: immediately after a respawn, the particle position lies inside the
viewport, `[0, w) x [0, h)`, and its age is 0 — both for the inline respawn
of the animate loop (part_006 lines 491-498, modelled by `respawnParticle`)
and for `resetParticle` of the trail variant (part_006 lines 914-923,
modelled by `resetFlowParticle`).  The random draws are Math.random values in
[0, 1). -/
theorem respawn_in_bounds_age_zero (w h : ℚ) (zpMaxAge trailLength : ℤ)
    (r1 r2 r3 s1 s2 s3 : ℚ) (hw : 0 < w) (hh : 0 < h)
    (hr1 : 0 ≤ r1) (hr1lt : r1 < 1) (hr2 : 0 ≤ r2) (hr2lt : r2 < 1)
    (hs1 : 0 ≤ s1) (hs1lt : s1 < 1) (hs2 : 0 ≤ s2) (hs2lt : s2 < 1) :
    (0 ≤ (respawnParticle w h zpMaxAge r1 r2 r3).x ∧
      (respawnParticle w h zpMaxAge r1 r2 r3).x < w ∧
      0 ≤ (respawnParticle w h zpMaxAge r1 r2 r3).y ∧
      (respawnParticle w h zpMaxAge r1 r2 r3).y < h ∧
      (respawnParticle w h zpMaxAge r1 r2 r3).age = 0) ∧
    (0 ≤ (resetFlowParticle w h trailLength s1 s2 s3).x ∧
      (resetFlowParticle w h trailLength s1 s2 s3).x < w ∧
      0 ≤ (resetFlowParticle w h trailLength s1 s2 s3).y ∧
      (resetFlowParticle w h trailLength s1 s2 s3).y < h ∧
      (resetFlowParticle w h trailLength s1 s2 s3).age = 0) := by
  unfold respawnParticle resetFlowParticle
  refine ⟨⟨?_, ?_, ?_, ?_, rfl⟩, ⟨?_, ?_, ?_, ?_, rfl⟩⟩
  · exact mul_nonneg hr1 hw.le
  · calc r1 * w < 1 * w := by exact mul_lt_mul_of_pos_right hr1lt hw
      _ = w := one_mul w
  · exact mul_nonneg hr2 hh.le
  · calc r2 * h < 1 * h := by exact mul_lt_mul_of_pos_right hr2lt hh
      _ = h := one_mul h
  · exact mul_nonneg hs1 hw.le
  · calc s1 * w < 1 * w := by exact mul_lt_mul_of_pos_right hs1lt hw
      _ = w := one_mul w
  · exact mul_nonneg hs2 hh.le
  · calc s2 * h < 1 * h := by exact mul_lt_mul_of_pos_right hs2lt hh
      _ = h := one_mul h

theorem respawn_in_bounds_age_zero_witness :
    (0 : ℚ) < 100 ∧ (0 : ℚ) < 50 ∧
      (0 : ℚ) ≤ 1/2 ∧ (1/2 : ℚ) < 1 ∧ (0 : ℚ) ≤ 1/3 ∧ (1/3 : ℚ) < 1 ∧
      (0 : ℚ) ≤ 1/4 ∧ (1/4 : ℚ) < 1 ∧ (0 : ℚ) ≤ 1/5 ∧ (1/5 : ℚ) < 1 ∧
      ((0 ≤ (respawnParticle 100 50 120 (1/2) (1/3) (1/7)).x ∧
        (respawnParticle 100 50 120 (1/2) (1/3) (1/7)).x < 100 ∧
        0 ≤ (respawnParticle 100 50 120 (1/2) (1/3) (1/7)).y ∧
        (respawnParticle 100 50 120 (1/2) (1/3) (1/7)).y < 50 ∧
        (respawnParticle 100 50 120 (1/2) (1/3) (1/7)).age = 0) ∧
      (0 ≤ (resetFlowParticle 100 50 30 (1/4) (1/5) (1/7)).x ∧
        (resetFlowParticle 100 50 30 (1/4) (1/5) (1/7)).x < 100 ∧
        0 ≤ (resetFlowParticle 100 50 30 (1/4) (1/5) (1/7)).y ∧
        (resetFlowParticle 100 50 30 (1/4) (1/5) (1/7)).y < 50 ∧
        (resetFlowParticle 100 50 30 (1/4) (1/5) (1/7)).age = 0)) :=
  ⟨by norm_num, by norm_num, by norm_num, by norm_num, by norm_num,
    by norm_num, by norm_num, by norm_num, by norm_num, by norm_num,
    respawn_in_bounds_age_zero 100 50 120 30 (1/2) (1/3) (1/7) (1/4) (1/5)
      (1/7) (by norm_num) (by norm_num) (by norm_num) (by norm_num)
      (by norm_num) (by norm_num) (by norm_num) (by norm_num) (by norm_num)
      (by norm_num)⟩

lemma stepParticle_age_le (spts : List ScreenPoint)
    (interpRadius speedScale : ℚ) (zpMaxAge : ℤ) (w h : ℚ) (p : Particle)
    (mag r1 r2 r3 : ℚ) (hz : 0 ≤ zpMaxAge) (hr3 : 0 ≤ r3) :
    (stepParticle spts interpRadius speedScale zpMaxAge w h p mag r1 r2 r3).age ≤
      (stepParticle spts interpRadius speedScale zpMaxAge w h p mag r1 r2 r3).maxAge := by
  have hfloor : (0 : ℤ) ≤ ⌊r3 * 40⌋ :=
    Int.floor_nonneg.mpr (by positivity)
  unfold stepParticle
  split
  · exact le_refl _
  · split
    · exact le_refl _
    · dsimp only
      split
      · split
        · show (0 : ℤ) ≤ zpMaxAge + ⌊r3 * 40⌋
          omega
        · rename_i hcond
          push_neg at hcond
          exact le_of_lt hcond.2.2.2.2
      · split
        · show (0 : ℤ) ≤ zpMaxAge + ⌊r3 * 40⌋
          omega
        · rename_i hcond
          push_neg at hcond
          exact le_of_lt hcond.2.2.2.2

lemma stepFBParticle_age_le (w h : ℚ) (p : FBParticle) (wind : Option WindVec)
    (r1 r2 r3 : ℚ) (hr3 : 0 ≤ r3) :
    (stepFBParticle w h p wind r1 r2 r3).age ≤
      (stepFBParticle w h p wind r1 r2 r3).maxAge := by
  have hfloor : (0 : ℤ) ≤ ⌊r3 * 80⌋ :=
    Int.floor_nonneg.mpr (by positivity)
  unfold stepFBParticle resetFBParticle
  split
  · show (0 : ℤ) ≤ 80 + ⌊r3 * 80⌋
    omega
  · dsimp only
    split
    · show (0 : ℤ) ≤ 80 + ⌊r3 * 80⌋
      omega
    · rename_i hcond
      push_neg at hcond
      exact hcond.1

lemma exists_of_mem_zipWith {α β γ : Type} (f : α → β → γ) :
    ∀ (as : List α) (bs : List β) (c : γ), c ∈ List.zipWith f as bs →
      ∃ a ∈ as, ∃ b ∈ bs, c = f a b := by
  intro as
  induction as with
  | nil => intro bs c hc; simp at hc
  | cons a rest ih =>
      intro bs c hc
      cases bs with
      | nil => simp at hc
      | cons b bs =>
          rw [List.zipWith_cons_cons] at hc
          rcases List.mem_cons.mp hc with h | h
          · exact ⟨a, List.mem_cons_self a rest, b, List.mem_cons_self b bs, h⟩
          · rcases ih bs c h with ⟨a1, ha, b1, hb, he⟩
            exact ⟨a1, List.mem_cons_of_mem a ha, b1,
              List.mem_cons_of_mem b hb, he⟩

lemma stepPool_age_le (spts : List ScreenPoint) (interpRadius speedScale : ℚ)
    (zpMaxAge : ℤ) (w h : ℚ) (pool : List Particle) (ins : List StepIn)
    (hz : 0 ≤ zpMaxAge) (hins : ∀ i ∈ ins, 0 ≤ i.r3) :
    ∀ q ∈ stepPool spts interpRadius speedScale zpMaxAge w h pool ins,
      q.age ≤ q.maxAge := by
  intro q hq
  rcases exists_of_mem_zipWith _ pool ins q hq with ⟨p, _, i, hi, he⟩
  subst he
  exact stepParticle_age_le spts interpRadius speedScale zpMaxAge w h p
    i.mag i.r1 i.r2 i.r3 hz (hins i hi)

lemma stepFBPool_age_le (w h : ℚ) (pool : List FBParticle) (ins : List FBIn)
    (hins : ∀ i ∈ ins, 0 ≤ i.r3) :
    ∀ q ∈ stepFBPool w h pool ins, q.age ≤ q.maxAge := by
  intro q hq
  rcases exists_of_mem_zipWith _ pool ins q hq with ⟨p, _, i, hi, he⟩
  subst he
  exact stepFBParticle_age_le w h p i.wind i.r1 i.r2 i.r3 (hins i hi)

lemma runFrames_age_le (spts : List ScreenPoint)
    (interpRadius speedScale : ℚ) (zpMaxAge : ℤ) (w h : ℚ)
    (hz : 0 ≤ zpMaxAge) :
    ∀ (frames : List (List StepIn)) (pool : List Particle), frames ≠ [] →
      (∀ fr ∈ frames, ∀ i ∈ fr, 0 ≤ i.r3) →
      ∀ p ∈ runFrames spts interpRadius speedScale zpMaxAge w h pool frames,
        p.age ≤ p.maxAge := by
  intro frames
  induction frames with
  | nil => intro pool hne _; exact absurd rfl hne
  | cons fr rest ih =>
      intro pool _ hval
      have hfr : ∀ i ∈ fr, 0 ≤ i.r3 := hval fr (List.mem_cons_self fr rest)
      have hrest : ∀ g ∈ rest, ∀ i ∈ g, 0 ≤ i.r3 := by
        intro g hg; exact hval g (List.mem_cons_of_mem fr hg)
      cases rest with
      | nil =>
          intro p hp
          exact stepPool_age_le spts interpRadius speedScale zpMaxAge w h
            pool fr hz hfr p hp
      | cons g gs =>
          intro p hp
          exact ih (stepPool spts interpRadius speedScale zpMaxAge w h pool fr)
            (by simp) hrest p hp

lemma runFBFrames_age_le (w h : ℚ) :
    ∀ (frames : List (List FBIn)) (pool : List FBParticle), frames ≠ [] →
      (∀ fr ∈ frames, ∀ i ∈ fr, 0 ≤ i.r3) →
      ∀ p ∈ runFBFrames w h pool frames, p.age ≤ p.maxAge := by
  intro frames
  induction frames with
  | nil => intro pool hne _; exact absurd rfl hne
  | cons fr rest ih =>
      intro pool _ hval
      have hfr : ∀ i ∈ fr, 0 ≤ i.r3 := hval fr (List.mem_cons_self fr rest)
      have hrest : ∀ g ∈ rest, ∀ i ∈ g, 0 ≤ i.r3 := by
        intro g hg; exact hval g (List.mem_cons_of_mem fr hg)
      cases rest with
      | nil =>
          intro p hp
          exact stepFBPool_age_le w h pool fr hfr p hp
      | cons g gs =>
          intro p hp
          exact ih (stepFBPool w h pool fr) (by simp) hrest p hp

/-- C4 counterexample: the freshly initialized pool of the 2D fallback
(part_006 lines 1544-1551) draws the age from [0, 120) independently of the
maxAge drawn from [80, 160), so at N = 0 frames a particle can already have
`age > maxAge`: the draws (0, 0, 0.999, 0) give age 119 and maxAge 80.  The
draws used are valid Math.random values. -/
theorem fallback_initial_pool_age_exceeds_maxAge :
    (∃ p ∈ runFBFrames 100 100
        [createFBParticle 100 100 0 0 (999/1000) 0] [],
      p.maxAge < p.age) ∧
    (0 : ℚ) ≤ 999/1000 ∧ (999/1000 : ℚ) < 1 := by
  refine ⟨⟨createFBParticle 100 100 0 0 (999/1000) 0, ?_, ?_⟩,
    by norm_num, by norm_num⟩
  · simp [runFBFrames]
  · unfold createFBParticle
    have h1 : (⌊(999/1000 : ℚ) * 120⌋ : ℤ) = 119 := by
      rw [Int.floor_eq_iff]
      norm_num
    have h2 : (⌊(0 : ℚ) * 80⌋ : ℤ) = 0 := by norm_num
    simp only [h1, h2]
    omega

/-- C4 amended: after every frame (any N of at least 1), no particle of the
pool has `age > maxAge` — both in the primary animate loop (part_006
lines 473-499) and in the 2D fallback loop (part_006 lines 1562-1598) —
and the initial pool of the primary loop (`createParticle`) also satisfies
the bound; only the fallback's initial pool can violate it.  Hypotheses
restrict the random draws to Math.random ranges and the LOD maxAge to its
nonnegative values. -/
theorem age_le_maxAge_after_frames :
    (∀ (spts : List ScreenPoint) (interpRadius speedScale : ℚ)
        (zpMaxAge : ℤ) (w h : ℚ) (pool : List Particle)
        (frames : List (List StepIn)),
        0 ≤ zpMaxAge → frames ≠ [] →
        (∀ fr ∈ frames, ∀ i ∈ fr, 0 ≤ i.r3) →
        ∀ p ∈ runFrames spts interpRadius speedScale zpMaxAge w h pool frames,
          p.age ≤ p.maxAge) ∧
    (∀ (w h : ℚ) (pool : List FBParticle) (frames : List (List FBIn)),
        frames ≠ [] → (∀ fr ∈ frames, ∀ i ∈ fr, 0 ≤ i.r3) →
        ∀ p ∈ runFBFrames w h pool frames, p.age ≤ p.maxAge) ∧
    (∀ (w h : ℚ) (maxAge : ℤ) (r1 r2 rAge rJit : ℚ), 0 ≤ maxAge →
        0 ≤ rAge → rAge ≤ 1 → 0 ≤ rJit →
        (createParticle w h maxAge r1 r2 rAge rJit).age ≤
          (createParticle w h maxAge r1 r2 rAge rJit).maxAge) := by
  refine ⟨?_, ?_, ?_⟩
  · intro spts interpRadius speedScale zpMaxAge w h pool frames hz hne hval
    exact runFrames_age_le spts interpRadius speedScale zpMaxAge w h hz
      frames pool hne hval
  · intro w h pool frames hne hval
    exact runFBFrames_age_le w h frames pool hne hval
  · intro w h maxAge r1 r2 rAge rJit hm h0 h1 hj
    unfold createParticle
    simp only
    have hmq : (0 : ℚ) ≤ (maxAge : ℚ) := by exact_mod_cast hm
    have ha : (⌊rAge * maxAge⌋ : ℤ) ≤ maxAge := by
      have : rAge * (maxAge : ℚ) ≤ (maxAge : ℚ) := by nlinarith
      calc (⌊rAge * (maxAge : ℚ)⌋ : ℤ) ≤ ⌊(maxAge : ℚ)⌋ := Int.floor_le_floor this
        _ = maxAge := Int.floor_intCast maxAge
    have hb : (0 : ℤ) ≤ ⌊rJit * 40⌋ := Int.floor_nonneg.mpr (by positivity)
    omega

theorem age_le_maxAge_after_frames_witness :
    (0 : ℤ) ≤ 120 ∧ ([[StepIn.mk 0 0 0 0]] : List (List StepIn)) ≠ [] ∧
      (∀ fr ∈ ([[StepIn.mk 0 0 0 0]] : List (List StepIn)),
        ∀ i ∈ fr, 0 ≤ i.r3) ∧
      (∀ p ∈ runFrames [] 2000 (12/100) 120 100 100
          [Particle.mk 1 2 1 2 5 10] [[StepIn.mk 0 0 0 0]],
        p.age ≤ p.maxAge) ∧
      ([[FBIn.mk none 0 0 0]] : List (List FBIn)) ≠ [] ∧
      (∀ p ∈ runFBFrames 100 100 [FBParticle.mk 1 2 5 10]
          [[FBIn.mk none 0 0 0]],
        p.age ≤ p.maxAge) ∧
      (createParticle 100 100 120 0 0 (1/2) 0).age ≤
        (createParticle 100 100 120 0 0 (1/2) 0).maxAge :=
  ⟨by norm_num, by simp,
    by
      intro fr hfr i hi
      rw [List.mem_singleton] at hfr
      subst hfr
      rw [List.mem_singleton] at hi
      subst hi
      norm_num,
    age_le_maxAge_after_frames.1 [] 2000 (12/100) 120 100 100
      [Particle.mk 1 2 1 2 5 10] [[StepIn.mk 0 0 0 0]] (by norm_num) (by simp)
      (by
      intro fr hfr i hi
      rw [List.mem_singleton] at hfr
      subst hfr
      rw [List.mem_singleton] at hi
      subst hi
      norm_num),
    by simp,
    age_le_maxAge_after_frames.2.1 100 100 [FBParticle.mk 1 2 5 10]
      [[FBIn.mk none 0 0 0]] (by simp)
      (by
      intro fr hfr i hi
      rw [List.mem_singleton] at hfr
      subst hfr
      rw [List.mem_singleton] at hi
      subst hi
      norm_num),
    age_le_maxAge_after_frames.2.2 100 100 120 0 0 (1/2) 0 (by norm_num)
      (by norm_num) (by norm_num) (by norm_num)⟩

lemma abs_min_sub_min (a b c : ℚ) : |min a c - min b c| ≤ |a - b| := by
  rcases le_total a c with h1 | h1
  · rcases le_total b c with h2 | h2
    · rw [min_eq_left h1, min_eq_left h2]
    · rw [min_eq_left h1, min_eq_right h2,
        abs_of_nonpos (by linarith : a - c ≤ 0),
        abs_of_nonpos (by linarith : a - b ≤ 0)]
      linarith
  · rcases le_total b c with h2 | h2
    · rw [min_eq_right h1, min_eq_left h2,
        abs_of_nonneg (by linarith : 0 ≤ c - b),
        abs_of_nonneg (by linarith : 0 ≤ a - b)]
      linarith
    · rw [min_eq_right h1, min_eq_right h2]
      simp [abs_nonneg]

lemma abs_max_sub_max (a b c : ℚ) : |max a c - max b c| ≤ |a - b| := by
  rcases le_total c a with h1 | h1
  · rcases le_total c b with h2 | h2
    · rw [max_eq_left h1, max_eq_left h2]
    · rw [max_eq_left h1, max_eq_right h2,
        abs_of_nonneg (by linarith : 0 ≤ a - c),
        abs_of_nonneg (by linarith : 0 ≤ a - b)]
      linarith
  · rcases le_total c b with h2 | h2
    · rw [max_eq_right h1, max_eq_left h2,
        abs_of_nonpos (by linarith : c - b ≤ 0),
        abs_of_nonpos (by linarith : a - b ≤ 0)]
      linarith
    · rw [max_eq_right h1, max_eq_right h2]
      simp [abs_nonneg]

lemma abs_min_sub_min_left (c a b : ℚ) : |min c a - min c b| ≤ |a - b| := by
  rw [min_comm c a, min_comm c b]
  exact abs_min_sub_min a b c

lemma abs_max_sub_max_left (c a b : ℚ) : |max c a - max c b| ≤ |a - b| := by
  rw [max_comm c a, max_comm c b]
  exact abs_max_sub_max a b c

lemma round_mono_rat {a b : ℚ} (h : a ≤ b) : round a ≤ round b := by
  rw [round_eq, round_eq]
  exact Int.floor_le_floor (by linarith)

lemma abs_round_sub_round (a b : ℚ) :
    |((round a : ℤ) : ℚ) - ((round b : ℤ) : ℚ)| ≤ |a - b| + 1 := by
  have ha1 : ((round a : ℤ) : ℚ) ≤ a + 1/2 := by
    rw [round_eq]; exact Int.floor_le (a + 1/2)
  have ha2 : a + 1/2 - 1 < ((round a : ℤ) : ℚ) := by
    rw [round_eq]; exact Int.sub_one_lt_floor (a + 1/2)
  have hb1 : ((round b : ℤ) : ℚ) ≤ b + 1/2 := by
    rw [round_eq]; exact Int.floor_le (b + 1/2)
  have hb2 : b + 1/2 - 1 < ((round b : ℤ) : ℚ) := by
    rw [round_eq]; exact Int.sub_one_lt_floor (b + 1/2)
  have h1 := le_abs_self (a - b)
  have h2 := neg_abs_le (a - b)
  rw [abs_le]
  constructor <;> linarith

lemma zClamp_mono {z1 z2 : ℚ} (h : z1 ≤ z2) : zClamp z1 ≤ zClamp z2 :=
  max_le_max le_rfl (min_le_min h le_rfl)

lemma zClamp_le_18 (z : ℚ) : zClamp z ≤ 18 :=
  max_le (by norm_num) (min_le_right _ _)

lemma zClamp_lip (z1 z2 : ℚ) : |zClamp z1 - zClamp z2| ≤ |z1 - z2| := by
  unfold zClamp
  calc |max 2 (min z1 18) - max 2 (min z2 18)| ≤ |min z1 18 - min z2 18| :=
        abs_max_sub_max_left 2 _ _
    _ ≤ |z1 - z2| := abs_min_sub_min z1 z2 18

lemma zDelta_nonneg (z : ℚ) : 0 ≤ zDelta z := le_max_left 0 _

lemma zDelta_le_14 (z : ℚ) : zDelta z ≤ 14 :=
  max_le (by norm_num) (by linarith [zClamp_le_18 z])

lemma zDelta_mono {z1 z2 : ℚ} (h : z1 ≤ z2) : zDelta z1 ≤ zDelta z2 :=
  max_le_max le_rfl (by linarith [zClamp_mono h])

lemma zDelta_lip (z1 z2 : ℚ) : |zDelta z1 - zDelta z2| ≤ |z1 - z2| := by
  unfold zDelta
  calc |max 0 (zClamp z1 - 4) - max 0 (zClamp z2 - 4)| ≤
      |(zClamp z1 - 4) - (zClamp z2 - 4)| := abs_max_sub_max_left 0 _ _
    _ = |zClamp z1 - zClamp z2| := by ring_nf
    _ ≤ |z1 - z2| := zClamp_lip z1 z2

lemma zT_nonneg (z : ℚ) : 0 ≤ zT z :=
  le_min (by norm_num) (div_nonneg (zDelta_nonneg z) (by norm_num))

lemma zT_le_one (z : ℚ) : zT z ≤ 1 := min_le_left 1 _

lemma zT_mono {z1 z2 : ℚ} (h : z1 ≤ z2) : zT z1 ≤ zT z2 :=
  min_le_min le_rfl (by linarith [zDelta_mono h])

lemma zT_lip (z1 z2 : ℚ) : |zT z1 - zT z2| ≤ |z1 - z2| / 6 := by
  unfold zT
  calc |min 1 (zDelta z1 / 6) - min 1 (zDelta z2 / 6)| ≤
      |zDelta z1 / 6 - zDelta z2 / 6| := abs_min_sub_min_left 1 _ _
    _ = |zDelta z1 - zDelta z2| / 6 := by
        rw [div_sub_div_same, abs_div]
        norm_num
    _ ≤ |z1 - z2| / 6 := by linarith [zDelta_lip z1 z2]

lemma zEase_mono {z1 z2 : ℚ} (h : z1 ≤ z2) : zEase z1 ≤ zEase z2 :=
  mul_le_mul (zT_mono h) (zT_mono h) (zT_nonneg z1) (le_trans (zT_nonneg z2) (zT_mono (le_refl z2)))

lemma zEase_lip (z1 z2 : ℚ) : |zEase z1 - zEase z2| ≤ |z1 - z2| / 3 := by
  unfold zEase
  have hsum : |zT z1 + zT z2| ≤ 2 := by
    rw [abs_le]
    constructor <;> [linarith [zT_nonneg z1, zT_nonneg z2];
      linarith [zT_le_one z1, zT_le_one z2]]
  calc |zT z1 * zT z1 - zT z2 * zT z2| = |(zT z1 - zT z2) * (zT z1 + zT z2)| := by
        ring_nf
    _ = |zT z1 - zT z2| * |zT z1 + zT z2| := abs_mul _ _
    _ ≤ (|z1 - z2| / 6) * 2 :=
        mul_le_mul (zT_lip z1 z2) hsum (abs_nonneg _) (by positivity)
    _ = |z1 - z2| / 3 := by ring

/-- C7: the LOD function `getZoomParams` (part_006 lines 40-52) is monotone
in zoom — the particle count never grows and the interpolation radius never
shrinks as zoom increases — and has no discontinuous jumps: every component
obeys a Lipschitz bound in the zoom difference, up to the unavoidable one
unit of `Math.round` quantization on the integer-valued components. -/
theorem getZoomParams_monotone_continuous (z1 z2 : ℚ) (h : z1 ≤ z2) :
    (getZoomParams z2).particleCount ≤ (getZoomParams z1).particleCount ∧
    (getZoomParams z1).interpRadius ≤ (getZoomParams z2).interpRadius ∧
    |((getZoomParams z1).particleCount : ℚ) -
        ((getZoomParams z2).particleCount : ℚ)| ≤ 450 * (z2 - z1) + 1 ∧
    |((getZoomParams z1).interpRadius : ℚ) -
        ((getZoomParams z2).interpRadius : ℚ)| ≤ 14000 * (z2 - z1) + 1 ∧
    |(getZoomParams z1).speedScale - (getZoomParams z2).speedScale| ≤ z2 - z1 ∧
    |(getZoomParams z1).trailFade - (getZoomParams z2).trailFade| ≤ z2 - z1 ∧
    |((getZoomParams z1).maxAge : ℚ) - ((getZoomParams z2).maxAge : ℚ)| ≤
      32 * (z2 - z1) + 1 ∧
    |(getZoomParams z1).lineWidth - (getZoomParams z2).lineWidth| ≤ z2 - z1 := by
  have hz : (0 : ℚ) ≤ z2 - z1 := by linarith
  have hem : zEase z1 ≤ zEase z2 := zEase_mono h
  have hel : |zEase z1 - zEase z2| ≤ (z2 - z1) / 3 := by
    have := zEase_lip z1 z2
    rwa [abs_of_nonpos (by linarith : z1 - z2 ≤ 0), neg_sub] at this
  have hd1 := zDelta_nonneg z1
  have hd2 := zDelta_nonneg z2
  have hd14a := zDelta_le_14 z1
  have hd14b := zDelta_le_14 z2
  have hdm : zDelta z1 ≤ zDelta z2 := zDelta_mono h
  have hdl : |zDelta z1 - zDelta z2| ≤ z2 - z1 := by
    have := zDelta_lip z1 z2
    rwa [abs_of_nonpos (by linarith : z1 - z2 ≤ 0), neg_sub] at this
  have heabs := abs_le.mp hel
  have hdabs := abs_le.mp hdl
  simp only [getZoomParams]
  refine ⟨?_, ?_, ?_, ?_, ?_, ?_, ?_, ?_⟩
  · exact max_le_max le_rfl (round_mono_rat (by nlinarith))
  · exact add_le_add_left (round_mono_rat (by nlinarith)) 2000
  · push_cast
    calc |max (150 : ℚ) (round (1500 * (1 - zEase z1 * (9/10))) : ℤ) -
        max (150 : ℚ) (round (1500 * (1 - zEase z2 * (9/10))) : ℤ)| ≤
        |((round (1500 * (1 - zEase z1 * (9/10))) : ℤ) : ℚ) -
          ((round (1500 * (1 - zEase z2 * (9/10))) : ℤ) : ℚ)| :=
          abs_max_sub_max_left 150 _ _
      _ ≤ |1500 * (1 - zEase z1 * (9/10)) - 1500 * (1 - zEase z2 * (9/10))| + 1 :=
          abs_round_sub_round _ _
      _ = 1350 * |zEase z1 - zEase z2| + 1 := by
          rw [show 1500 * (1 - zEase z1 * (9/10)) - 1500 * (1 - zEase z2 * (9/10)) =
            (-1350) * (zEase z1 - zEase z2) by ring, abs_mul]
          norm_num
      _ ≤ 450 * (z2 - z1) + 1 := by nlinarith
  · push_cast
    calc |(2000 + ((round (zDelta z1 * zDelta z1 * 500) : ℤ) : ℚ)) -
        (2000 + ((round (zDelta z2 * zDelta z2 * 500) : ℤ) : ℚ))| =
        |((round (zDelta z1 * zDelta z1 * 500) : ℤ) : ℚ) -
          ((round (zDelta z2 * zDelta z2 * 500) : ℤ) : ℚ)| := by ring_nf
      _ ≤ |zDelta z1 * zDelta z1 * 500 - zDelta z2 * zDelta z2 * 500| + 1 :=
          abs_round_sub_round _ _
      _ = 500 * (|zDelta z1 - zDelta z2| * |zDelta z1 + zDelta z2|) + 1 := by
          rw [show zDelta z1 * zDelta z1 * 500 - zDelta z2 * zDelta z2 * 500 =
              (zDelta z1 - zDelta z2) * (zDelta z1 + zDelta z2) * 500 by ring,
            abs_mul, abs_mul, abs_of_nonneg (by norm_num : (0:ℚ) ≤ 500)]
          ring
      _ ≤ 14000 * (z2 - z1) + 1 := by
          have habs2 : |zDelta z1 + zDelta z2| ≤ 28 := by
            rw [abs_le]; constructor <;> linarith
          nlinarith [abs_nonneg (zDelta z1 - zDelta z2)]
  · calc |(12/100 : ℚ) * max (15/100) (1 - zEase z1 * (85/100)) -
        (12/100) * max (15/100) (1 - zEase z2 * (85/100))| =
        (12/100) * |max (15/100) (1 - zEase z1 * (85/100)) -
          max (15/100) (1 - zEase z2 * (85/100))| := by
          rw [show (12/100 : ℚ) * max (15/100) (1 - zEase z1 * (85/100)) -
              (12/100) * max (15/100) (1 - zEase z2 * (85/100)) =
              (12/100) * (max (15/100) (1 - zEase z1 * (85/100)) -
                max (15/100) (1 - zEase z2 * (85/100))) by ring,
            abs_mul, abs_of_nonneg (by norm_num : (0:ℚ) ≤ 12/100)]
      _ ≤ (12/100) * |(1 - zEase z1 * (85/100)) - (1 - zEase z2 * (85/100))| := by
          have := abs_max_sub_max_left (15/100 : ℚ)
            (1 - zEase z1 * (85/100)) (1 - zEase z2 * (85/100))
          linarith
      _ = (12/100) * ((85/100) * |zEase z1 - zEase z2|) := by
          rw [show (1 - zEase z1 * (85/100)) - (1 - zEase z2 * (85/100)) =
            (-(85/100)) * (zEase z1 - zEase z2) by ring, abs_mul]
          norm_num
      _ ≤ z2 - z1 := by nlinarith [abs_nonneg (zEase z1 - zEase z2)]
  · calc |min (96/100 : ℚ) (92/100 + zEase z1 * (4/100)) -
        min (96/100) (92/100 + zEase z2 * (4/100))| ≤
        |(92/100 + zEase z1 * (4/100)) - (92/100 + zEase z2 * (4/100))| :=
          abs_min_sub_min_left _ _ _
      _ = (4/100) * |zEase z1 - zEase z2| := by
          rw [show (92/100 + zEase z1 * (4/100)) - (92/100 + zEase z2 * (4/100)) =
            (4/100) * (zEase z1 - zEase z2) by ring, abs_mul,
            abs_of_nonneg (by norm_num : (0:ℚ) ≤ 4/100)]
      _ ≤ z2 - z1 := by nlinarith [abs_nonneg (zEase z1 - zEase z2)]
  · calc |((round (120 * (1 + zEase z1 * (4/5))) : ℤ) : ℚ) -
        ((round (120 * (1 + zEase z2 * (4/5))) : ℤ) : ℚ)| ≤
        |120 * (1 + zEase z1 * (4/5)) - 120 * (1 + zEase z2 * (4/5))| + 1 :=
          abs_round_sub_round _ _
      _ = 96 * |zEase z1 - zEase z2| + 1 := by
          rw [show 120 * (1 + zEase z1 * (4/5)) - 120 * (1 + zEase z2 * (4/5)) =
            96 * (zEase z1 - zEase z2) by ring, abs_mul,
            abs_of_nonneg (by norm_num : (0:ℚ) ≤ 96)]
      _ ≤ 32 * (z2 - z1) + 1 := by nlinarith
  · calc |max (1/2 : ℚ) (1 - zEase z1 * (1/2)) -
        max (1/2) (1 - zEase z2 * (1/2))| ≤
        |(1 - zEase z1 * (1/2)) - (1 - zEase z2 * (1/2))| :=
          abs_max_sub_max_left _ _ _
      _ = (1/2) * |zEase z1 - zEase z2| := by
          rw [show (1 - zEase z1 * (1/2)) - (1 - zEase z2 * (1/2)) =
            (-(1/2)) * (zEase z1 - zEase z2) by ring, abs_mul]
          norm_num
      _ ≤ z2 - z1 := by nlinarith [abs_nonneg (zEase z1 - zEase z2)]

theorem getZoomParams_monotone_continuous_witness :
    (3 : ℚ) ≤ 7 ∧
      ((getZoomParams 7).particleCount ≤ (getZoomParams 3).particleCount ∧
        (getZoomParams 3).interpRadius ≤ (getZoomParams 7).interpRadius ∧
        |((getZoomParams 3).particleCount : ℚ) -
            ((getZoomParams 7).particleCount : ℚ)| ≤ 450 * (7 - 3) + 1 ∧
        |((getZoomParams 3).interpRadius : ℚ) -
            ((getZoomParams 7).interpRadius : ℚ)| ≤ 14000 * (7 - 3) + 1 ∧
        |(getZoomParams 3).speedScale - (getZoomParams 7).speedScale| ≤ 7 - 3 ∧
        |(getZoomParams 3).trailFade - (getZoomParams 7).trailFade| ≤ 7 - 3 ∧
        |((getZoomParams 3).maxAge : ℚ) - ((getZoomParams 7).maxAge : ℚ)| ≤
          32 * (7 - 3) + 1 ∧
        |(getZoomParams 3).lineWidth - (getZoomParams 7).lineWidth| ≤ 7 - 3) :=
  ⟨by norm_num, getZoomParams_monotone_continuous 3 7 (by norm_num)⟩

lemma idwCellGo_first_exact (lat lon : ℚ) (p : FieldSample)
    (l2 : List FieldSample) (hp : geoDistSq lat lon p < 1/100) :
    ∀ (l1 : List FieldSample) (tw uI vI : ℚ),
      (∀ q ∈ l1, ¬ geoDistSq lat lon q < 1/100) →
      idwCellGo lat lon (l1 ++ p :: l2) tw uI vI = (1, p.u, p.v) := by
  intro l1
  induction l1 with
  | nil =>
      intro tw uI vI _
      simp only [List.nil_append, idwCellGo]
      rw [if_pos hp]
  | cons q rest ih =>
      intro tw uI vI h
      have hq : ¬ geoDistSq lat lon q < 1/100 := h q (List.mem_cons_self q rest)
      have hrest : ∀ r ∈ rest, ¬ geoDistSq lat lon r < 1/100 := by
        intro r hr; exact h r (List.mem_cons_of_mem q hr)
      simp only [List.cons_append, idwCellGo]
      rw [if_neg hq]
      exact ih _ _ _ hrest

lemma idwCell_first_exact (lat lon : ℚ) (p : FieldSample)
    (l1 l2 : List FieldSample) (hp : geoDistSq lat lon p < 1/100)
    (hfirst : ∀ q ∈ l1, ¬ geoDistSq lat lon q < 1/100) :
    idwCell (l1 ++ p :: l2) lat lon = (p.u, p.v) := by
  unfold idwCell
  rw [idwCellGo_first_exact lat lon p l2 hp l1 0 0 0 hfirst]
  norm_num

lemma buildWindField_cell_at (pts : List FieldSample)
    (south north west east : ℚ) (resolution ix iy : ℕ)
    (hx : ix < resolution) :
    (buildWindField pts south north west east resolution).uField
        (iy * resolution + ix) =
      (idwCell pts
        (latOf south north ((round ((resolution : ℚ) * (3/5))).toNat) iy)
        (lonOf west east resolution ix)).1 ∧
    (buildWindField pts south north west east resolution).vField
        (iy * resolution + ix) =
      (idwCell pts
        (latOf south north ((round ((resolution : ℚ) * (3/5))).toNat) iy)
        (lonOf west east resolution ix)).2 := by
  have hpos : 0 < resolution := by omega
  have hdiv : (iy * resolution + ix) / resolution = iy := by
    rw [Nat.mul_comm iy resolution, Nat.mul_add_div hpos,
      Nat.div_eq_of_lt hx, Nat.add_zero]
  have hmod : (iy * resolution + ix) % resolution = ix := by
    rw [Nat.mul_comm iy resolution, Nat.mul_add_mod, Nat.mod_eq_of_lt hx]
  constructor <;> simp only [buildWindField, hdiv, hmod]

lemma sampleWindField_at_node (f : WindField) (wd ht ix iy : ℕ)
    (hfw : f.width = wd) (hfh : f.height = ht)
    (hw : 2 ≤ wd) (hh : 2 ≤ ht) (hx : ix < wd) (hy : iy < ht) :
    sampleWindField f ((ix : ℚ) / ((wd : ℚ) - 1)) ((iy : ℚ) / ((ht : ℚ) - 1)) =
      (f.uField (iy * wd + ix), f.vField (iy * wd + ix)) := by
  subst hfw
  subst hfh
  have hwq : ((f.width : ℚ) - 1) ≠ 0 := by
    have : (2 : ℚ) ≤ (f.width : ℚ) := by exact_mod_cast hw
    intro hcon
    linarith
  have hhq : ((f.height : ℚ) - 1) ≠ 0 := by
    have : (2 : ℚ) ≤ (f.height : ℚ) := by exact_mod_cast hh
    intro hcon
    linarith
  have hfx : (ix : ℚ) / ((f.width : ℚ) - 1) * ((f.width : ℚ) - 1) = (ix : ℚ) :=
    div_mul_cancel₀ _ hwq
  have hfy : (iy : ℚ) / ((f.height : ℚ) - 1) * ((f.height : ℚ) - 1) = (iy : ℚ) :=
    div_mul_cancel₀ _ hhq
  have hx0 : (max 0 (min ((ix : ℕ) : ℤ) ((f.width : ℤ) - 1))).toNat = ix := by
    omega
  have hy0 : (max 0 (min ((iy : ℕ) : ℤ) ((f.height : ℤ) - 1))).toNat = iy := by
    omega
  simp only [sampleWindField]
  rw [hfx, hfy, Int.floor_natCast, Int.floor_natCast, hx0, hy0]
  have hdx : (ix : ℚ) - (((ix : ℕ) : ℤ) : ℚ) = 0 := by push_cast; ring
  have hdy : (iy : ℚ) - (((iy : ℕ) : ℤ) : ℚ) = 0 := by push_cast; ring
  rw [hdx, hdy]
  simp only [Prod.mk.injEq]
  constructor <;> ring

/-- C6 counterexample: two samples inside one exact-match epsilon ball make
the rasterized round trip return the wrong sample.  With bounds
(south 0, north 1, west 0, east 0.01) and resolution 3 (so the grid nodes of
the top row sit at lng 0, 0.005, 0.01), sample A at (lat 1, lng 0) carries
u = 10 and sample B at (lat 1, lng 0.005) carries u = -10; B sits exactly on
a grid node, 0.005 degrees from A, within the 0.01 epsilon.  Rasterizing and
bilinearly sampling at B's own normalized coordinates (0.5, 0) returns A's
value (10, 0), not B's (-10, 0): the full 20-unit spread, outside any
interpolation tolerance. -/
theorem roundtrip_fails_conflicting_samples :
    sampleWindField
        (buildWindField
          [FieldSample.mk 1 0 10 0, FieldSample.mk 1 (1/200) (-10) 0]
          0 1 0 (1/100) 3) (1/2) 0 = (10, 0) ∧
      ((10 : ℚ), (0 : ℚ)) ≠ ((-10 : ℚ), (0 : ℚ)) := by
  constructor
  · norm_num [sampleWindField, buildWindField, idwCell, idwCellGo, geoDistSq,
      latOf, lonOf, round_eq, Int.floor_eq_iff]
  · intro hcon
    rw [Prod.mk.injEq] at hcon
    norm_num at hcon

/-- C6 amended: the encode-then-sample round trip is exact — hence within
any interpolation tolerance — for a sample that lies exactly on a grid node
of the dense field and is the first sample of the set within the 0.01
exact-match epsilon of that node; samples violating this (sharing an epsilon
ball with an earlier sample, as in the counterexample) can be recovered as a
different sample's value.  `hgt` abbreviates the field height
`Math.round(resolution * 0.6)`. -/
theorem roundtrip_exact_at_grid_node (pts l1 l2 : List FieldSample)
    (p : FieldSample) (south north west east : ℚ) (resolution ix iy : ℕ)
    (hres : 2 ≤ resolution)
    (hhgt : 2 ≤ (round ((resolution : ℚ) * (3/5))).toNat)
    (hx : ix < resolution)
    (hy : iy < (round ((resolution : ℚ) * (3/5))).toNat)
    (hpts : pts = l1 ++ p :: l2)
    (hlat : p.lat = latOf south north ((round ((resolution : ℚ) * (3/5))).toNat) iy)
    (hlng : p.lng = lonOf west east resolution ix)
    (hfar : ∀ q ∈ l1,
      ¬ geoDistSq (latOf south north ((round ((resolution : ℚ) * (3/5))).toNat) iy)
          (lonOf west east resolution ix) q < 1/100) :
    sampleWindField (buildWindField pts south north west east resolution)
        ((ix : ℚ) / ((resolution : ℚ) - 1))
        ((iy : ℚ) / ((((round ((resolution : ℚ) * (3/5))).toNat : ℕ) : ℚ) - 1)) =
      (p.u, p.v) := by
  have hnode := sampleWindField_at_node
    (buildWindField pts south north west east resolution) resolution
    ((round ((resolution : ℚ) * (3/5))).toNat) ix iy rfl rfl hres hhgt hx hy
  rw [hnode]
  have hcell := buildWindField_cell_at pts south north west east resolution
    ix iy hx
  rw [hcell.1, hcell.2]
  have hp : geoDistSq
      (latOf south north ((round ((resolution : ℚ) * (3/5))).toNat) iy)
      (lonOf west east resolution ix) p < 1/100 := by
    unfold geoDistSq
    rw [hlat, hlng]
    norm_num
  subst hpts
  rw [idwCell_first_exact _ _ p l1 l2 hp hfar]

/-- Witness for the amended C6: a single sample placed exactly on the grid
node (row 0, column 1) of a 3-wide field over bounds (0, 1, 0, 0.01) is
recovered exactly by sampling at its own normalized coordinates. -/
theorem roundtrip_exact_at_grid_node_witness :
    ((2 : ℕ) ≤ 3 ∧ 2 ≤ (round (((3 : ℕ) : ℚ) * (3/5))).toNat ∧ (1 : ℕ) < 3 ∧
      0 < (round (((3 : ℕ) : ℚ) * (3/5))).toNat ∧
      (([] ++ FieldSample.mk 1 (1/200) 7 (-3) :: []) : List FieldSample) =
        [] ++ FieldSample.mk 1 (1/200) 7 (-3) :: [] ∧
      (FieldSample.mk 1 (1/200) 7 (-3)).lat =
        latOf 0 1 ((round (((3 : ℕ) : ℚ) * (3/5))).toNat) 0 ∧
      (FieldSample.mk 1 (1/200) 7 (-3)).lng = lonOf 0 (1/100) 3 1) ∧
    sampleWindField
        (buildWindField ([] ++ FieldSample.mk 1 (1/200) 7 (-3) :: [])
          0 1 0 (1/100) 3)
        (((1 : ℕ) : ℚ) / (((3 : ℕ) : ℚ) - 1))
        (((0 : ℕ) : ℚ) / ((((round (((3 : ℕ) : ℚ) * (3/5))).toNat : ℕ) : ℚ) - 1)) =
      ((FieldSample.mk 1 (1/200) 7 (-3)).u, (FieldSample.mk 1 (1/200) 7 (-3)).v) := by
  have hround : round (((3 : ℕ) : ℚ) * (3/5)) = 2 := by norm_num [round_eq]
  have hr : (round (((3 : ℕ) : ℚ) * (3/5))).toNat = 2 := by rw [hround]; rfl
  refine ⟨⟨by norm_num, by rw [hr], by norm_num, by rw [hr]; norm_num, rfl,
    by rw [hr]; norm_num [latOf], by norm_num [lonOf]⟩, ?_⟩
  exact roundtrip_exact_at_grid_node _ [] [] (FieldSample.mk 1 (1/200) 7 (-3))
    0 1 0 (1/100) 3 1 0 (by norm_num) (by rw [hr]) (by norm_num)
    (by rw [hr]; norm_num) rfl (by rw [hr]; norm_num [latOf])
    (by norm_num [lonOf]) (by intro q hq; simp at hq)

/-- C8 counterexample: the plain store of `wind-layer.tsx` (lines 84-102)
has no retry logic and replaces the held samples with the empty list as soon
as one fetch returns `{points: []}` with status 200: after three such
responses for one bounds key (the second and third deduplicated), the
previously non-empty sample set is gone. -/
theorem simpleFetch_clears_points_on_empty :
    (simpleFetchStep (simpleFetchStep (simpleFetchStep
        { points := [GridPoint.mk 1 2 10 90 20 none none none],
          lastBounds := none }
        (1, 2, 3, 4) (.ok [])) (1, 2, 3, 4) (.ok []))
        (1, 2, 3, 4) (.ok [])).points = [] ∧
      ([GridPoint.mk 1 2 10 90 20 none none none] : List GridPoint) ≠ [] := by
  constructor
  · simp [simpleFetchStep]
  · simp

/-- C8 amended: the retrying store of the wind-wave layer (part_006
lines 802-836) behaves as the claim says: three consecutive empty
responses for one bounds key each schedule a retry while keeping the
previous non-empty sample set, and a fourth empty response (the counter
having reached the 3-attempt maximum) schedules no further retry and still
keeps the sample set; the plain `wind-layer.tsx` store instead clears the
display (see the counterexample). -/
theorem fetchGridData_retry_bounded_retains_points (P : List GridPoint)
    (key : ℚ × ℚ × ℚ × ℚ) (hP : P ≠ []) :
    ((emptyFetchRun ⟨P, 0, none⟩ key 1).1.points = P ∧
        (emptyFetchRun ⟨P, 0, none⟩ key 1).2 = true) ∧
      ((emptyFetchRun ⟨P, 0, none⟩ key 2).1.points = P ∧
        (emptyFetchRun ⟨P, 0, none⟩ key 2).2 = true) ∧
      ((emptyFetchRun ⟨P, 0, none⟩ key 3).1.points = P ∧
        (emptyFetchRun ⟨P, 0, none⟩ key 3).2 = true) ∧
      ((emptyFetchRun ⟨P, 0, none⟩ key 4).1.points = P ∧
        (emptyFetchRun ⟨P, 0, none⟩ key 4).2 = false) := by
  simp [emptyFetchRun, fetchGridDataStep]

theorem fetchGridData_retry_bounded_retains_points_witness :
    ([GridPoint.mk 1 2 10 90 20 none none none] : List GridPoint) ≠ [] ∧
      (((emptyFetchRun ⟨[GridPoint.mk 1 2 10 90 20 none none none], 0, none⟩
            (5, 6, 7, 8) 1).1.points = [GridPoint.mk 1 2 10 90 20 none none none] ∧
          (emptyFetchRun ⟨[GridPoint.mk 1 2 10 90 20 none none none], 0, none⟩
            (5, 6, 7, 8) 1).2 = true) ∧
        (((emptyFetchRun ⟨[GridPoint.mk 1 2 10 90 20 none none none], 0, none⟩
            (5, 6, 7, 8) 2).1.points = [GridPoint.mk 1 2 10 90 20 none none none] ∧
          (emptyFetchRun ⟨[GridPoint.mk 1 2 10 90 20 none none none], 0, none⟩
            (5, 6, 7, 8) 2).2 = true) ∧
        ((emptyFetchRun ⟨[GridPoint.mk 1 2 10 90 20 none none none], 0, none⟩
            (5, 6, 7, 8) 3).1.points = [GridPoint.mk 1 2 10 90 20 none none none] ∧
          (emptyFetchRun ⟨[GridPoint.mk 1 2 10 90 20 none none none], 0, none⟩
            (5, 6, 7, 8) 3).2 = true) ∧
        ((emptyFetchRun ⟨[GridPoint.mk 1 2 10 90 20 none none none], 0, none⟩
            (5, 6, 7, 8) 4).1.points = [GridPoint.mk 1 2 10 90 20 none none none] ∧
          (emptyFetchRun ⟨[GridPoint.mk 1 2 10 90 20 none none none], 0, none⟩
            (5, 6, 7, 8) 4).2 = false))) :=
  ⟨by simp,
    fetchGridData_retry_bounded_retains_points
      [GridPoint.mk 1 2 10 90 20 none none none] (5, 6, 7, 8) (by simp)⟩

/-- C9 counterexample: the part_013 handler (lines 147-236, cited by the
claim) answers a thrown upstream fetch with HTTP 500
(`{error: "Failed to fetch grid data"}`) even for valid numeric bounds —
an error response, not a best-effort points payload. -/
theorem handler013_errors_on_upstream_throw :
    gridWeatherHandler013 (some 1, some 2, some 3, some 4)
        UpstreamOutcome.throwErr = GridResponse.errorRes 500 ∧
      GridResponse.isPoints (GridResponse.errorRes 500) = false := by
  constructor
  · norm_num [gridWeatherHandler013, parseBounds, padBounds, buildPairs,
      ascSeq, round_eq]
    intro hcon
    simp at hcon
  · rfl

/-- C9 amended: the part_012 handler (lines 313-437) never answers an
error for valid numeric bounds: every path — empty query grid, fresh cache
hit, rate-limited window, upstream error body, thrown fetch, and success —
produces a `{points: [...]}` payload, falling back to the cache,
`lastGoodGridData` or the synthetic generator; the legacy part_013 handler
instead returns 500 on a thrown fetch (see the counterexample). -/
theorem handler012_always_points (st : ServerState) (q : QueryBounds)
    (up : UpstreamOutcome) (o : TrigOracle)
    (h : (parseBounds q).isSome = true) :
    (gridWeatherHandler012 st q up o).isPoints = true := by
  obtain ⟨b, hb⟩ := Option.isSome_iff_exists.mp h
  obtain ⟨s, n, w, e⟩ := b
  unfold gridWeatherHandler012
  rw [hb]
  dsimp only
  repeat' split
  all_goals rfl

theorem handler012_always_points_witness :
    (parseBounds ((some 1, some 2, some 3, some 4) : QueryBounds)).isSome =
        true ∧
      (gridWeatherHandler012 ⟨none, none, false⟩
        ((some 1, some 2, some 3, some 4) : QueryBounds)
        UpstreamOutcome.throwErr zeroOracle).isPoints = true :=
  ⟨rfl,
    handler012_always_points ⟨none, none, false⟩
      ((some 1, some 2, some 3, some 4) : QueryBounds)
      UpstreamOutcome.throwErr zeroOracle rfl⟩

lemma jsMod_nonneg_lt (a b : ℚ) (hb : 0 < b) (ha : 0 ≤ a) :
    0 ≤ jsMod a b ∧ jsMod a b < b := by
  unfold jsMod jsTrunc
  rw [if_pos (div_nonneg ha hb.le)]
  have h1 : ((⌊a / b⌋ : ℤ) : ℚ) ≤ a / b := Int.floor_le _
  have h2 : a / b < (⌊a / b⌋ : ℚ) + 1 := Int.lt_floor_add_one _
  have h3 : a / b * b = a := div_mul_cancel₀ a hb.ne'
  have h4 := mul_le_mul_of_nonneg_right h1 hb.le
  have h5 := mul_lt_mul_of_pos_right h2 hb
  rw [h3] at h4 h5
  constructor
  · nlinarith
  · nlinarith

lemma jsMod_neg_bounds (a b : ℚ) (hb : 0 < b) (ha : a < 0) :
    -b < jsMod a b ∧ jsMod a b ≤ 0 := by
  unfold jsMod jsTrunc
  have hdiv : a / b < 0 := div_neg_of_neg_of_pos ha hb
  rw [if_neg (by linarith)]
  have h1 : ((⌊-(a / b)⌋ : ℤ) : ℚ) ≤ -(a / b) := Int.floor_le _
  have h2 : -(a / b) < (⌊-(a / b)⌋ : ℚ) + 1 := Int.lt_floor_add_one _
  have h3 : a / b * b = a := div_mul_cancel₀ a hb.ne'
  have h4 := mul_le_mul_of_nonneg_right h1 hb.le
  have h5 := mul_lt_mul_of_pos_right h2 hb
  have h6 : -(a / b) * b = -a := by rw [neg_mul, h3]
  rw [h6] at h4 h5
  push_cast
  constructor
  · nlinarith
  · nlinarith

lemma dirNorm_bounds (d : ℚ) :
    0 ≤ jsMod (jsMod d 360 + 360) 360 ∧
      jsMod (jsMod d 360 + 360) 360 < 360 := by
  rcases le_or_lt 0 d with hd | hd
  · have h1 := jsMod_nonneg_lt d 360 (by norm_num) hd
    exact jsMod_nonneg_lt _ 360 (by norm_num) (by linarith [h1.1])
  · have h1 := jsMod_neg_bounds d 360 (by norm_num) hd
    exact jsMod_nonneg_lt _ 360 (by norm_num) (by linarith [h1.1])

lemma syntheticPoint_invariants (o : TrigOracle) (lat lng : ℚ) :
    (0 ≤ (syntheticPoint o lat lng).windDir ∧
      (syntheticPoint o lat lng).windDir ≤ 360) ∧
    (((syntheticPoint o lat lng).waveHeight = none ∧
        (syntheticPoint o lat lng).waveDir = none ∧
        (syntheticPoint o lat lng).wavePeriod = none) ∨
      ((syntheticPoint o lat lng).waveHeight.isSome = true ∧
        (syntheticPoint o lat lng).wavePeriod.isSome = true)) := by
  unfold syntheticPoint
  dsimp only
  constructor
  · have hb := dirNorm_bounds
      ((if 0 < lat then 225 + lat * (1/2) else 315 - lat * (1/2)) +
        o.sinDirVar lat lng * 30)
    have hr0 : (0 : ℤ) ≤ round (jsMod (jsMod
        ((if 0 < lat then 225 + lat * (1/2) else 315 - lat * (1/2)) +
          o.sinDirVar lat lng * 30) 360 + 360) 360) := by
      rw [round_eq]
      exact Int.floor_nonneg.mpr (by linarith [hb.1])
    have hr1 : round (jsMod (jsMod
        ((if 0 < lat then 225 + lat * (1/2) else 315 - lat * (1/2)) +
          o.sinDirVar lat lng * 30) 360 + 360) 360) ≤ 360 := by
      rw [round_eq]
      calc ⌊jsMod (jsMod
          ((if 0 < lat then 225 + lat * (1/2) else 315 - lat * (1/2)) +
            o.sinDirVar lat lng * 30) 360 + 360) 360 + 1/2⌋ ≤
          ⌊(721 : ℚ)/2⌋ := Int.floor_le_floor (by linarith [hb.2])
        _ = 360 := by norm_num
    constructor
    · exact_mod_cast hr0
    · exact_mod_cast hr1
  · by_cases hco : |lat| < 60
    · right
      simp only [if_pos hco]
      constructor
      · simp only [jsTruthy]
        rw [if_neg (ne_of_gt (lt_of_lt_of_le (by norm_num)
          (le_max_left (1/5) _)))]
        rfl
      · simp only [jsTruthy]
        rw [if_neg (ne_of_gt (lt_of_lt_of_le (by norm_num)
          (le_max_left 4 _)))]
        rfl
    · left
      simp only [if_neg hco]
      exact ⟨rfl, rfl, rfl⟩

/-- C10 amended: every sample of the synthetic generator has
`windDir ∈ [0, 360]` — the value 360 itself is attainable through
`Math.round` — and its wave fields are either all null (open ocean) or have
`waveHeight` and `wavePeriod` both non-null (coastal); `waveDir` can be
independently null when the computed direction is exactly 0 (JavaScript
number truthiness).  The upstream mapping path applies no validation at all
(see the counterexample). -/
theorem synthetic_sample_invariants (s n w e : ℚ) (o : TrigOracle) :
    ∀ p ∈ generateSyntheticWindData s n w e o,
      (0 ≤ p.windDir ∧ p.windDir ≤ 360) ∧
      ((p.waveHeight = none ∧ p.waveDir = none ∧ p.wavePeriod = none) ∨
        (p.waveHeight.isSome = true ∧ p.wavePeriod.isSome = true)) := by
  intro p hp
  simp only [generateSyntheticWindData] at hp
  rw [List.mem_join] at hp
  obtain ⟨row, hrow, hpr⟩ := hp
  rw [List.mem_map] at hrow
  obtain ⟨lat, _, hrow⟩ := hrow
  subst hrow
  rw [List.mem_map] at hpr
  obtain ⟨lng, _, hpr⟩ := hpr
  subst hpr
  exact syntheticPoint_invariants o lat lng

lemma ascSeq_head_mem (start step bound : ℚ) (fuel : ℕ) (h : start ≤ bound) :
    start ∈ ascSeq start step bound (fuel + 1) := by
  simp only [ascSeq]
  rw [if_pos h]
  exact List.mem_cons_self _ _

lemma syntheticPoint_head_mem (s n w e : ℚ) (o : TrigOracle)
    (hlat : s + (n - s) / 5 / 2 ≤ n) (hlng : w + (e - w) / 7 / 2 ≤ e) :
    syntheticPoint o (s + (n - s) / 5 / 2) (w + (e - w) / 7 / 2) ∈
      generateSyntheticWindData s n w e o := by
  simp only [generateSyntheticWindData]
  rw [List.mem_join]
  exact ⟨_, List.mem_map_of_mem _ (ascSeq_head_mem _ _ _ 15 hlat),
    List.mem_map_of_mem _ (ascSeq_head_mem _ _ _ 15 hlng)⟩

theorem synthetic_sample_invariants_witness :
    (syntheticPoint zeroOracle ((0 : ℚ) + (10 - 0) / 5 / 2)
        ((0 : ℚ) + (14 - 0) / 7 / 2) ∈
      generateSyntheticWindData 0 10 0 14 zeroOracle) ∧
      ((0 ≤ (syntheticPoint zeroOracle ((0 : ℚ) + (10 - 0) / 5 / 2)
            ((0 : ℚ) + (14 - 0) / 7 / 2)).windDir ∧
        (syntheticPoint zeroOracle ((0 : ℚ) + (10 - 0) / 5 / 2)
            ((0 : ℚ) + (14 - 0) / 7 / 2)).windDir ≤ 360) ∧
      (((syntheticPoint zeroOracle ((0 : ℚ) + (10 - 0) / 5 / 2)
            ((0 : ℚ) + (14 - 0) / 7 / 2)).waveHeight = none ∧
          (syntheticPoint zeroOracle ((0 : ℚ) + (10 - 0) / 5 / 2)
            ((0 : ℚ) + (14 - 0) / 7 / 2)).waveDir = none ∧
          (syntheticPoint zeroOracle ((0 : ℚ) + (10 - 0) / 5 / 2)
            ((0 : ℚ) + (14 - 0) / 7 / 2)).wavePeriod = none) ∨
        ((syntheticPoint zeroOracle ((0 : ℚ) + (10 - 0) / 5 / 2)
            ((0 : ℚ) + (14 - 0) / 7 / 2)).waveHeight.isSome = true ∧
          (syntheticPoint zeroOracle ((0 : ℚ) + (10 - 0) / 5 / 2)
            ((0 : ℚ) + (14 - 0) / 7 / 2)).wavePeriod.isSome = true))) :=
  ⟨syntheticPoint_head_mem 0 10 0 14 zeroOracle (by norm_num) (by norm_num),
    synthetic_sample_invariants 0 10 0 14 zeroOracle _
      (syntheticPoint_head_mem 0 10 0 14 zeroOracle (by norm_num)
        (by norm_num))⟩

/-- C10 counterexample, both halves of the claim.  First: the synthetic
generator (part_012 lines 15-50) called for bounds south -90, north -88
(reachable through the catch path of the handler) yields, at its first grid
point (lat -89.8, with the direction-variation sine at 0), a raw direction
of 359.9 degrees that `Math.round` turns into windDir = 360 — outside
[0, 360).  Second: the upstream mapping (part_013 lines 214-229) copies the
wave fields independently with `?? null`, so an upstream entry with a wave
height but no wave period yields a sample with `waveHeight` non-null and
`wavePeriod` null — the fields are not jointly null or jointly present. -/
theorem gridSample_invariant_violations :
    (∃ p ∈ generateSyntheticWindData (-90) (-88) 0 7 zeroOracle,
      ¬ p.windDir < 360) ∧
    (∃ p ∈ mapPoints
        [WeatherEntry.mk 1 2
          (some (WeatherCurrent.mk (some 10) (some 360) (some 20)))]
        [MarineEntry.mk (some (MarineCurrent.mk (some (6/5)) none none))],
      p.waveHeight.isSome = true ∧ p.wavePeriod = none) := by
  constructor
  · refine ⟨syntheticPoint zeroOracle ((-90 : ℚ) + (-88 - -90) / 5 / 2)
      ((0 : ℚ) + (7 - 0) / 7 / 2),
      syntheticPoint_head_mem (-90) (-88) 0 7 zeroOracle (by norm_num)
        (by norm_num), ?_⟩
    have hwd : (syntheticPoint zeroOracle ((-90 : ℚ) + (-88 - -90) / 5 / 2)
        ((0 : ℚ) + (7 - 0) / 7 / 2)).windDir = 360 := by
      norm_num [syntheticPoint, zeroOracle, jsMod, jsTrunc, round_eq]
    rw [hwd]
    norm_num
  · refine ⟨GridPoint.mk 1 2 10 360 20 (some (6/5)) none none, ?_, rfl, rfl⟩
    norm_num [mapPoints, jsOrDefault]

end SurfCast
